import Mathlib

/-!
# Notification dispatch relay (`server.js`)

A shallow embedding of the request handler `POST /api/send-notification`, of the
helper `isValidEmail`, of the start-up code that creates the mail transporter and
of `GET /api/notifications/status`, followed by theorems about them.

Modelling conventions.

* A request body is an arbitrary JSON value (`JVal`); the JavaScript coercions
  the handler applies to it (truthiness, `Array.isArray`, `includes`, property
  access, string conversion) are written out.  A number is given by whether
  it is zero and by the text `Number.prototype.toString` prints for it, the
  two things the handler can observe of it.  Strings are sequences of Unicode
  characters; the character classes of the e-mail pattern contain neither
  surrogate code unit, so matching by character agrees with matching by
  UTF-16 code unit.
* String conversion of an object throws a `TypeError` exactly when the object
  has an own property `toString` (a JSON value is never callable, and the
  inherited `valueOf` returns the object itself).
* `process.env` maps names to optional strings.
* The mail transport and the two HTTP gateways are functions from the request
  they are given to either a thrown error object or a response, typed after the
  provider's interface.  Every call is appended to a call log.
* `console.*` calls produce no value; the string conversions of their template
  arguments are kept because they can throw.
-/

namespace Server

/-! ## JavaScript values and coercions -/

/-- A JSON value as produced by `express.json()`, plus `undefined` for absent
properties.  A number carries whether it is zero and its printed text. -/
inductive JVal where
  | undefined
  | null
  | bool (b : Bool)
  | num (isZero : Bool) (text : String)
  | str (s : String)
  | arr (items : List JVal)
  | obj (fields : List (String × JVal))

/-- The response part of an HTTP client error (`error.response`). -/
structure ErrorData where
  message : Option String
  description : Option String
  deriving DecidableEq, Repr

/-- An error object as thrown by the mail transport, the HTTP client or the
runtime.  `response` is `none` when `error.response` is undefined, `some none`
when `error.response.data` is undefined and `some (some d)` otherwise. -/
structure JSError where
  message : String
  code : Option String
  responseCode : Option Int
  response : Option (Option ErrorData)
  deriving DecidableEq, Repr

deriving instance DecidableEq for Except

/-- The `TypeError` raised when an object cannot be converted to a primitive. -/
def typeError : JSError :=
  ⟨"Cannot convert object to primitive value", none, none, none⟩

namespace JVal

/-- JavaScript truthiness (`!v` is its negation). -/
def truthy : JVal → Bool
  | undefined => false
  | null => false
  | bool b => b
  | num isZero _ => !isZero
  | str s => s != ""
  | arr _ => true
  | obj _ => true

/-- The function `Array.isArray`. -/
def isArray : JVal → Bool
  | arr _ => true
  | _ => false

/-- Strict equality with a string literal. -/
def isStr (lit : String) : JVal → Bool
  | str s => s == lit
  | _ => false

/-- The call `channels.includes(lit)` for a string literal `lit`. -/
def includes (channels : JVal) (lit : String) : Bool :=
  match channels with
  | arr items => items.any (isStr lit)
  | _ => false

/-- Own-property lookup in a parsed JSON object; for a repeated key the last
occurrence wins. -/
def lookup (key : String) (fields : List (String × JVal)) : JVal :=
  match fields.reverse.find? (fun kv => kv.1 == key) with
  | some kv => kv.2
  | none => undefined

/-- Whether the object has an own property `key`. -/
def hasKey (key : String) : List (String × JVal) → Bool
  | [] => false
  | (k, _) :: rest => k == key || hasKey key rest

/-- Optional chaining `v?.key`, which for a `v` other than `undefined` and `null`
is the property read `v.key`; the keys read (`subject`, `email`, ...) are defined
by no prototype. -/
def optChain (v : JVal) (key : String) : JVal :=
  match v with
  | obj fields => lookup key fields
  | _ => undefined

/-- Whether a value is `undefined` or `null`. -/
def isNullish : JVal → Bool
  | undefined => true
  | null => true
  | _ => false

mutual
/-- The abstract operation `ToString`, `none` standing for a thrown `TypeError`. -/
def toStr : JVal → Option String
  | undefined => some "undefined"
  | null => some "null"
  | bool b => some (if b then "true" else "false")
  | num _ text => some text
  | str s => some s
  | arr items => (joinItems items).map (String.intercalate ",")
  | obj fields => if hasKey "toString" fields then none else some "[object Object]"
/-- The element strings of `Array.prototype.join`: nullish elements give the
empty string. -/
def joinItems : List JVal → Option (List String)
  | [] => some []
  | v :: rest =>
    match (if isNullish v then some "" else toStr v), joinItems rest with
    | some a, some b => some (a :: b)
    | _, _ => none
end

/-- String conversion as used by template literals and `RegExp.prototype.test`. -/
def toJSString (v : JVal) : Except JSError String :=
  match toStr v with
  | some s => .ok s
  | none => .error typeError

end JVal

/-! ## The e-mail pattern -/

/-- The class `\s` of a JavaScript regular expression: white space and line
terminators. -/
def isWhiteSpace (c : Char) : Bool :=
  let n := c.toNat
  n == 0x09 || n == 0x0A || n == 0x0B || n == 0x0C || n == 0x0D || n == 0x20 ||
  n == 0xA0 || n == 0x1680 || (0x2000 ≤ n && n ≤ 0x200A) || n == 0x2028 ||
  n == 0x2029 || n == 0x202F || n == 0x205F || n == 0x3000 || n == 0xFEFF

/-- How often a pattern term may repeat. -/
inductive Quantifier where
  | once
  | oneOrMore

/-- One term of a pattern: a character class with a quantifier. -/
structure Term where
  accepts : Char → Bool
  quant : Quantifier

/-- Match of a sequence of terms against the whole input (`^...$`). -/
def matchAnchored : List Term → List Char → Bool
  | [], [] => true
  | [], _ :: _ => false
  | _ :: _, [] => false
  | t :: ts, c :: cs =>
    t.accepts c &&
      match t.quant with
      | .once => matchAnchored ts cs
      | .oneOrMore => matchAnchored ts cs || matchAnchored (t :: ts) cs

/-- The class `[^\s@]`. -/
def notSpaceAt (c : Char) : Bool := !(isWhiteSpace c || c == '@')

/-- The pattern `/^[^\s@]+@[^\s@]+\.[^\s@]+$/`. -/
def emailRegex : List Term :=
  [⟨notSpaceAt, .oneOrMore⟩, ⟨fun c => c == '@', .once⟩, ⟨notSpaceAt, .oneOrMore⟩,
   ⟨fun c => c == '.', .once⟩, ⟨notSpaceAt, .oneOrMore⟩]

/-- The helper `isValidEmail`; the pattern test converts its argument to a
string first, which can throw. -/
def isValidEmail (email : JVal) : Except JSError Bool :=
  if !email.truthy then .ok false
  else
    match email.toJSString with
    | .error e => .error e
    | .ok s => .ok (matchAnchored emailRegex s.toList)

/-! ## Configuration and providers -/

/-- The object `process.env`. -/
abbrev Env := String → Option String

/-- Truthiness of `process.env[name]`: set and non-empty. -/
def Env.isSet (env : Env) (name : String) : Bool :=
  match env name with
  | some v => v != ""
  | none => false

/-- The text of `process.env[name]` inside a template literal or a form field. -/
def Env.text (env : Env) (name : String) : String :=
  (env name).getD "undefined"

/-- Argument of `nodemailer.createTransport`. -/
structure TransportOptions where
  service : String
  user : Option String
  pass : Option String
  deriving DecidableEq, Repr

/-- Argument of `emailTransporter.sendMail`. -/
structure MailOptions where
  fromName : String
  fromAddress : Option String
  toAddress : JVal
  subject : String
  html : String

/-- Value of a resolved `sendMail` promise. -/
structure MailInfo where
  messageId : String
  deriving DecidableEq, Repr

/-- A created mail transporter, given by its method `sendMail`. -/
structure Transporter where
  sendMail : MailOptions → Except JSError MailInfo

/-- The function `nodemailer.createTransport`. -/
abbrev Nodemailer := TransportOptions → Except JSError Transporter

/-- Second argument of `axios.post`: the form fields sent to the WhatsApp
gateway or the JSON object sent to the Telegram gateway. -/
inductive PostData where
  | form (sender : String) (toAddress : String) (body : String)
  | json (chatId : JVal) (text : String)

/-- The arguments of one `axios.post` call. -/
structure PostRequest where
  url : String
  data : PostData
  auth : Option (Option String × Option String)
  headers : List (String × String)

/-- Value of a resolved `axios.post` promise: the members `data.sid` (set by the
WhatsApp gateway) and `data.result.message_id` (set by the Telegram gateway). -/
structure PostResponse where
  sid : Option String
  resultMessageId : Option Int
  deriving DecidableEq, Repr

/-- The function `axios.post`. -/
abbrev Axios := PostRequest → Except JSError PostResponse

/-- A provider call made while handling a request. -/
inductive Call where
  | sendMail (options : MailOptions)
  | post (request : PostRequest)

/-- Whether a call went to the mail transport. -/
def Call.isMail : Call → Bool
  | .sendMail _ => true
  | .post _ => false

/-- Whether a call is an `axios.post` to an address starting with `base`. -/
def Call.isPostTo (base : String) : Call → Bool
  | .sendMail _ => false
  | .post r => base.toList.isPrefixOf r.url.toList

/-- Start-up code: `emailTransporter` stays undefined unless both `EMAIL_USER`
and `EMAIL_PASS` are set and `createTransport` returns.  (The asynchronous
`verify` only logs.) -/
def initEmailTransporter (env : Env) (createTransport : Nodemailer) : Option Transporter :=
  if !env.isSet "EMAIL_USER" || !env.isSet "EMAIL_PASS" then none
  else
    match createTransport ⟨"gmail", env "EMAIL_USER", env "EMAIL_PASS"⟩ with
    | .ok transporter => some transporter
    | .error _ => none

/-! ## The channel handlers -/

/-- An element of `results`. -/
structure ChannelResult where
  channel : String
  status : String
  messageId : Option String
  error : Option String
  deriving DecidableEq, Repr

/-- What a request has accumulated so far: the `results` array and the log of
provider calls. -/
structure Dispatch where
  results : List ChannelResult
  calls : List Call

/-- The statement `results.push(r)`. -/
def Dispatch.push (st : Dispatch) (r : ChannelResult) : Dispatch :=
  ⟨st.results ++ [r], st.calls⟩

/-- Recording a provider call. -/
def Dispatch.record (st : Dispatch) (c : Call) : Dispatch :=
  ⟨st.results, st.calls ++ [c]⟩

/-- State after a block of statements, and the exception it threw, if any. -/
abbrev Step := Dispatch × Option JSError

/-- The `html` template of the mail. -/
def emailHtml (subject message : String) : String :=
  String.intercalate "\n"
    ["",
     "                            <div style=\"font-family: Arial, sans-serif; max-width: 600px; margin: 0 auto;\">",
     "                            <div style=\"background-color: #f8f9fa; padding: 20px; border-radius: 8px;\">",
     "                                <h2 style=\"color: #333; margin-bottom: 20px;\">Notifikasi dari Solusi Bangun Indonesia</h2>",
     "                                <div style=\"background-color: white; padding: 20px; border-radius: 5px; border-left: 4px solid #007bff;\">",
     "                                <h3 style=\"color: #333; margin-top: 0;\">" ++ subject ++ "</h3>",
     "                                <p style=\"color: #666; line-height: 1.6;\">" ++ message ++ "</p>",
     "                                </div>",
     "                                <div style=\"margin-top: 20px; font-size: 12px; color: #888;\">",
     "                                <p>Pesan ini dikirim secara otomatis oleh sistem Solusi Bangun Indonesia.</p>",
     "                                </div>",
     "                            </div>",
     "                            </div>",
     "                        "]

/-- The object literal `mailOptions`; its templates convert `subject` and
`message` to strings. -/
def mailOptions (env : Env) (subject message recipient : JVal) : Except JSError MailOptions :=
  match subject.toJSString with
  | .error e => .error e
  | .ok s =>
    match message.toJSString with
    | .error e => .error e
    | .ok m =>
      .ok ⟨"Anomaly Insight System", env "EMAIL_USER", recipient, "[Anomaly Insight] " ++ s,
           emailHtml s m⟩

/-- A `try { body } catch (error) { handler }` statement: the state reached
when `body` threw is kept and `handler` continues from it. -/
def tryCatch (body : Step) (handler : JSError → Dispatch → Step) : Step :=
  match body with
  | (st, none) => (st, none)
  | (st, some error) => handler error st

/-- Sequencing of statements: `next` runs unless the first part threw. -/
def andThen (first : Step) (next : Dispatch → Step) : Step :=
  match first with
  | (st, none) => next st
  | (st, some error) => (st, some error)

/-- A `console.*` call whose template converts `v` to a string. -/
def logWith (v : JVal) (st : Dispatch) : Step :=
  match v.toJSString with
  | .error e => (st, some e)
  | .ok _ => (st, none)

/-- The `try` block of the e-mail handler. -/
def emailTry (env : Env) (transporter : Transporter)
    (subject message currentEmailRecipient : JVal) (st : Dispatch) : Step :=
  match mailOptions env subject message currentEmailRecipient with
  | .error e => (st, some e)
  | .ok options =>
    match transporter.sendMail options with
    | .error e => (st.record (.sendMail options), some e)
    | .ok info =>
      logWith currentEmailRecipient
        ((st.record (.sendMail options)).push ⟨"email", "success", some info.messageId, none⟩)

/-- The text `errorMessage` chosen in the `catch` block of the e-mail handler. -/
def emailErrorMessage (currentEmailRecipient : JVal) (error : JSError) : Except JSError String :=
  if error.code == some "EAUTH" then
    .ok "Autentikasi email gagal. Periksa username dan App Password Gmail di .env."
  else if error.code == some "EENVELOPE" || error.responseCode == some 553 then
    match currentEmailRecipient.toJSString with
    | .error e => .error e
    | .ok r => .ok ("Alamat email pengirim/penerima tidak valid: " ++ r ++ ".")
  else if error.code == some "ECONNECTION" then
    .ok "Gagal terhubung ke server email. Periksa koneksi internet atau pengaturan SMTP."
  else .ok "Gagal mengirim email."

/-- The `catch` block of the e-mail handler. -/
def emailCatch (currentEmailRecipient : JVal) (error : JSError) (st : Dispatch) : Step :=
  match emailErrorMessage currentEmailRecipient error with
  | .error e => (st, some e)
  | .ok errorMessage =>
    logWith currentEmailRecipient
      (st.push ⟨"email", "failed", none, some (errorMessage ++ " " ++ error.message)⟩)

/-- The block `if (channels.includes('email')) { ... }`. -/
def emailBlock (env : Env) (emailTransporter : Option Transporter)
    (subject message channels recipients : JVal) (st : Dispatch) : Step :=
  if channels.includes "email" then
    let currentEmailRecipient := recipients.optChain "email"
    match emailTransporter with
    | none =>
      (st.push ⟨"email", "skipped", none,
        some "Email transporter tidak dikonfigurasi atau penerima tidak valid."⟩, none)
    | some transporter =>
      match isValidEmail currentEmailRecipient with
      | .error e => (st, some e)
      | .ok true =>
        tryCatch (emailTry env transporter subject message currentEmailRecipient st)
          (emailCatch currentEmailRecipient)
      | .ok false =>
        (st.push ⟨"email", "skipped", none,
          some "Email transporter tidak dikonfigurasi atau penerima tidak valid."⟩, none)
  else (st, none)

/-- The arguments of the `axios.post` call to the WhatsApp gateway. -/
def whatsappRequest (env : Env) (subject message currentWhatsappRecipient : JVal) :
    Except JSError PostRequest :=
  match subject.toJSString with
  | .error e => .error e
  | .ok s =>
    match message.toJSString with
    | .error e => .error e
    | .ok m =>
      match currentWhatsappRecipient.toJSString with
      | .error e => .error e
      | .ok r =>
        .ok ⟨"https://api.twilio.com/2010-04-01/Accounts/" ++ env.text "TWILIO_ACCOUNT_SID" ++
              "/Messages.json",
             .form (env.text "TWILIO_WHATSAPP_FROM") ("whatsapp:" ++ r)
               ("*" ++ s ++ "*\n\n" ++ m ++ "\n\n_Dikirim dari Solusi Bangun Indonesia_"),
             some (env "TWILIO_ACCOUNT_SID", env "TWILIO_AUTH_TOKEN"),
             [("Content-Type", "application/x-www-form-urlencoded")]⟩

/-- The `try` block of the WhatsApp handler. -/
def whatsappTry (env : Env) (axios : Axios)
    (subject message currentWhatsappRecipient : JVal) (st : Dispatch) : Step :=
  match whatsappRequest env subject message currentWhatsappRecipient with
  | .error e => (st, some e)
  | .ok request =>
    match axios request with
    | .error e => (st.record (.post request), some e)
    | .ok twilioResponse =>
      logWith currentWhatsappRecipient
        ((st.record (.post request)).push ⟨"whatsapp", "success", twilioResponse.sid, none⟩)

/-- A string member of `error.response?.data`, read with optional chaining. -/
def responseField (error : JSError) (field : ErrorData → Option String) : Option String :=
  match error.response with
  | some (some data) => field data
  | _ => none

/-- The expression `detail || error.message` for an optional string `detail`. -/
def orMessage (detail : Option String) (error : JSError) : String :=
  match detail with
  | some d => if d != "" then d else error.message
  | none => error.message

/-- The `catch` block of the WhatsApp handler. -/
def whatsappCatch (currentWhatsappRecipient : JVal) (error : JSError) (st : Dispatch) : Step :=
  let errorMessage := orMessage (responseField error ErrorData.message) error
  logWith currentWhatsappRecipient
    (st.push ⟨"whatsapp", "failed", none, some ("Twilio Error: " ++ errorMessage)⟩)

/-- The block `if (channels.includes('whatsapp')) { ... }`. -/
def whatsappBlock (env : Env) (axios : Axios)
    (subject message channels recipients : JVal) (st : Dispatch) : Step :=
  if channels.includes "whatsapp" then
    let currentWhatsappRecipient := recipients.optChain "whatsapp"
    if env.isSet "TWILIO_ACCOUNT_SID" && env.isSet "TWILIO_AUTH_TOKEN" &&
        env.isSet "TWILIO_WHATSAPP_FROM" && currentWhatsappRecipient.truthy then
      tryCatch (whatsappTry env axios subject message currentWhatsappRecipient st)
        (whatsappCatch currentWhatsappRecipient)
    else
      (st.push ⟨"whatsapp", "skipped", none,
        some "Twilio kredensial atau nomor penerima WhatsApp tidak diatur."⟩, none)
  else (st, none)

/-- The arguments of the `axios.post` call to the Telegram gateway. -/
def telegramRequest (env : Env) (subject message currentTelegramChatId : JVal) :
    Except JSError PostRequest :=
  match subject.toJSString with
  | .error e => .error e
  | .ok s =>
    match message.toJSString with
    | .error e => .error e
    | .ok m =>
      .ok ⟨"https://api.telegram.org/bot" ++ env.text "TELEGRAM_BOT_TOKEN" ++ "/sendMessage",
           .json currentTelegramChatId ("*" ++ s ++ "*\n\n" ++ m), none, []⟩

/-- The `try` block of the Telegram handler. -/
def telegramTry (env : Env) (axios : Axios)
    (subject message currentTelegramChatId : JVal) (st : Dispatch) : Step :=
  match telegramRequest env subject message currentTelegramChatId with
  | .error e => (st, some e)
  | .ok request =>
    match axios request with
    | .error e => (st.record (.post request), some e)
    | .ok _ =>
      logWith currentTelegramChatId
        ((st.record (.post request)).push ⟨"telegram", "success", none, none⟩)

/-- The `catch` block of the Telegram handler. -/
def telegramCatch (currentTelegramChatId : JVal) (error : JSError) (st : Dispatch) : Step :=
  let errorMessage := orMessage (responseField error ErrorData.description) error
  logWith currentTelegramChatId
    (st.push ⟨"telegram", "failed", none, some ("Telegram Error: " ++ errorMessage)⟩)

/-- The block `if (channels.includes('telegram')) { ... }`. -/
def telegramBlock (env : Env) (axios : Axios)
    (subject message channels recipients : JVal) (st : Dispatch) : Step :=
  if channels.includes "telegram" then
    let currentTelegramChatId := recipients.optChain "telegram"
    if env.isSet "TELEGRAM_BOT_TOKEN" && currentTelegramChatId.truthy &&
        env "TELEGRAM_BOT_TOKEN" != some "your_telegram_bot_token" then
      tryCatch (telegramTry env axios subject message currentTelegramChatId st)
        (telegramCatch currentTelegramChatId)
    else
      (st.push ⟨"telegram", "skipped", none,
        some "Token bot Telegram atau chat ID tidak dikonfigurasi."⟩, none)
  else (st, none)

/-! ## Aggregation and the request handler -/

/-- An HTTP response: status code and the members of the JSON body. -/
structure Response where
  status : Nat
  success : Bool
  message : String
  results : Option (List ChannelResult)
  error : Option String
  deriving DecidableEq, Repr

/-- The channels of the results with the given status,
`results.filter(r => r.status === status).map(r => r.channel)`. -/
def channelsWith (status : String) (results : List ChannelResult) : List String :=
  (results.filter (fun r => r.status == status)).map (fun r => r.channel)

/-- The summary text `finalMessage`. -/
def finalMessage (results : List ChannelResult) : String :=
  let successChannels := channelsWith "success" results
  let failedChannels := channelsWith "failed" results
  let skippedChannels := channelsWith "skipped" results
  let m0 := "Notifikasi berhasil diproses."
  let m1 := if successChannels.length > 0 then
    m0 ++ (" Terkirim melalui: " ++ String.intercalate ", " successChannels ++ ".") else m0
  let m2 := if failedChannels.length > 0 then
    m1 ++ (" Gagal pada: " ++ String.intercalate ", " failedChannels ++ ".") else m1
  if skippedChannels.length > 0 then
    m2 ++ (" Dilewati pada: " ++ String.intercalate ", " skippedChannels ++ ".") else m2

/-- The response chosen from `results` at the end of the handler. -/
def aggregate (results : List ChannelResult) : Response :=
  let successChannels := channelsWith "success" results
  let failedChannels := channelsWith "failed" results
  if successChannels.length > 0 then
    ⟨200, true, finalMessage results, some results, none⟩
  else if failedChannels.length > 0 then
    ⟨400, false, finalMessage results, some results, none⟩
  else
    ⟨200, true,
      if finalMessage results != "" then finalMessage results
      else "Tidak ada notifikasi yang dikirim. Periksa channel yang diminta atau konfigurasi.",
      some results, none⟩

/-- The response of the validation branch. -/
def validationResponse : Response :=
  ⟨400, false, "Subjek, pesan, dan saluran harus diisi.", none, none⟩

/-- The response of the outer `catch` block. -/
def internalErrorResponse (env : Env) (error : JSError) : Response :=
  ⟨500, false, "Terjadi kesalahan internal server saat memproses notifikasi.", none,
    if env "NODE_ENV" == some "development" then some error.message else none⟩

/-- The value of `channels.length` for an array. -/
def JVal.length : JVal → Nat
  | .arr items => items.length
  | _ => 0

/-- The condition of the validation branch. -/
def invalidRequest (subject message channels : JVal) : Bool :=
  !subject.truthy || !message.truthy || !channels.truthy || !channels.isArray ||
    channels.length == 0

/-- The three channel blocks in program order, started with empty `results`. -/
def dispatch (env : Env) (emailTransporter : Option Transporter) (axios : Axios)
    (subject message channels recipients : JVal) : Step :=
  andThen
    (andThen (emailBlock env emailTransporter subject message channels recipients ⟨[], []⟩)
      (whatsappBlock env axios subject message channels recipients))
    (telegramBlock env axios subject message channels recipients)

/-- The `TypeError` of destructuring an absent `req.body`. -/
def destructureError (body : JVal) : JSError :=
  ⟨"Cannot destructure property 'subject' of 'req.body' as it is " ++
    (match body with
      | .null => "null"
      | _ => "undefined") ++ ".", none, none, none⟩

/-- The statement `const { subject, message, channels, recipients } = req.body`,
which throws when `req.body` is `undefined` or `null`. -/
def destructure (body : JVal) : Except JSError (JVal × JVal × JVal × JVal) :=
  if body.isNullish then .error (destructureError body)
  else
    .ok (body.optChain "subject", body.optChain "message", body.optChain "channels",
      body.optChain "recipients")

/-- The handler of `POST /api/send-notification` applied to `req.body`: the
response sent and the provider calls made. -/
def sendNotification (env : Env) (emailTransporter : Option Transporter) (axios : Axios)
    (body : JVal) : Response × List Call :=
  match destructure body with
  | .error e => (internalErrorResponse env e, [])
  | .ok (subject, message, channels, recipients) =>
    if invalidRequest subject message channels then (validationResponse, [])
    else
      match dispatch env emailTransporter axios subject message channels recipients with
      | (st, none) => (aggregate st.results, st.calls)
      | (st, some error) => (internalErrorResponse env error, st.calls)

/-- The `services` object of `GET /api/notifications/status`. -/
structure Services where
  email : String
  whatsapp : String
  telegram : String
  deriving DecidableEq, Repr

/-- The handler of `GET /api/notifications/status`. -/
def notificationStatus (env : Env) : Services :=
  ⟨if env.isSet "EMAIL_USER" then "configured" else "not configured",
   if env.isSet "TWILIO_ACCOUNT_SID" && env.isSet "TWILIO_AUTH_TOKEN" &&
      env.isSet "TWILIO_WHATSAPP_FROM" then "configured" else "not configured",
   if env.isSet "TELEGRAM_BOT_TOKEN" &&
      env "TELEGRAM_BOT_TOKEN" != some "your_telegram_bot_token" then "configured"
   else "not configured"⟩

/-! ## Vocabulary of the statements -/

/-- The state before the first block. -/
def Dispatch.empty : Dispatch := ⟨[], []⟩

/-- One state followed by what a later block added. -/
def Dispatch.append (a b : Dispatch) : Dispatch := ⟨a.results ++ b.results, a.calls ++ b.calls⟩

/-- A block only appends to `results` and to the call log, and what it appends
and throws does not depend on the state it starts from. -/
def AppendOnly (block : Dispatch → Step) : Prop :=
  ∀ st, block st = (st.append (block Dispatch.empty).1, (block Dispatch.empty).2)

/-- Precondition of the e-mail channel: a created transporter and a recipient
accepted by `isValidEmail`. -/
def emailReady (emailTransporter : Option Transporter) (recipients : JVal) : Prop :=
  emailTransporter.isSome = true ∧ isValidEmail (recipients.optChain "email") = .ok true

/-- Precondition of the WhatsApp channel: the three gateway settings and a
non-empty recipient. -/
def whatsappReady (env : Env) (recipients : JVal) : Prop :=
  env.isSet "TWILIO_ACCOUNT_SID" = true ∧ env.isSet "TWILIO_AUTH_TOKEN" = true ∧
    env.isSet "TWILIO_WHATSAPP_FROM" = true ∧ (recipients.optChain "whatsapp").truthy = true

/-- Precondition of the Telegram channel: a bot token other than the
placeholder and a non-empty chat identifier. -/
def telegramReady (env : Env) (recipients : JVal) : Prop :=
  env.isSet "TELEGRAM_BOT_TOKEN" = true ∧
    env "TELEGRAM_BOT_TOKEN" ≠ some "your_telegram_bot_token" ∧
    (recipients.optChain "telegram").truthy = true

/-- The result pushed by the `catch` block of the WhatsApp handler. -/
def whatsappFailed (error : JSError) : ChannelResult :=
  ⟨"whatsapp", "failed", none,
    some ("Twilio Error: " ++ orMessage (responseField error ErrorData.message) error)⟩

/-- The result pushed by the `catch` block of the Telegram handler. -/
def telegramFailed (error : JSError) : ChannelResult :=
  ⟨"telegram", "failed", none,
    some ("Telegram Error: " ++ orMessage (responseField error ErrorData.description) error)⟩

/-- The request reaches the channel handlers: `req.body` can be destructured and
the validation branch is not taken. -/
def passesValidation (body : JVal) : Bool :=
  !body.isNullish &&
    !invalidRequest (body.optChain "subject") (body.optChain "message") (body.optChain "channels")

/-- The channel handlers of a request, run on the members of its body. -/
def run (env : Env) (emailTransporter : Option Transporter) (axios : Axios) (body : JVal) :
    Step :=
  dispatch env emailTransporter axios (body.optChain "subject") (body.optChain "message")
    (body.optChain "channels") (body.optChain "recipients")

/-- Address prefix of the WhatsApp gateway. -/
def twilioBase : String := "https://api.twilio.com/"

/-- Address prefix of the Telegram gateway. -/
def telegramBase : String := "https://api.telegram.org/"

/-- The text that the all-skipped branch falls back to when `finalMessage` is empty. -/
def nothingSentNote : String :=
  "Tidak ada notifikasi yang dikirim. Periksa channel yang diminta atau konfigurasi."

/-- A body with non-empty subject and message whose only channel is unrecognized. -/
def smsBody : JVal :=
  .obj [("subject", .str "Test"), ("message", .str "Hi"), ("channels", .arr [.str "sms"])]

/-- A configuration with no variable set. -/
def emptyEnv : Env := fun _ => none

/-- A gateway setting in which every request is accepted: form posts (WhatsApp)
are answered with a `sid`, JSON posts (Telegram) with a message identifier. -/
def acceptingAxios : Axios := fun request =>
  match request.data with
  | .form _ _ _ => .ok ⟨some "SM0001", none⟩
  | .json _ _ => .ok ⟨none, some 42⟩

/-- A configuration in which only the mail account identity is set. -/
def userOnlyEnv : Env := fun name =>
  if name == "EMAIL_USER" then some "hcsi.sbi@gmail.com" else none

/-- A body asking for an e-mail to a well-formed address. -/
def emailBody : JVal :=
  .obj [("subject", .str "Test"), ("message", .str "Hi"), ("channels", .arr [.str "email"]),
    ("recipients", .obj [("email", .str "hcscsbi9@gmail.com")])]

/-- A part of an address as the pattern sees it: non-empty, without white
space and without `@`. -/
def plainPart (x : String) : Prop :=
  x ≠ "" ∧ ∀ c ∈ x.toList, isWhiteSpace c = false ∧ c ≠ '@'

/-- A configuration with every channel configured. -/
def fullEnv : Env := fun name =>
  if name == "EMAIL_USER" then some "hcsi.sbi@gmail.com"
  else if name == "EMAIL_PASS" then some "app-password"
  else if name == "TWILIO_ACCOUNT_SID" then some "AC1"
  else if name == "TWILIO_AUTH_TOKEN" then some "token"
  else if name == "TWILIO_WHATSAPP_FROM" then some "whatsapp:+14155238886"
  else if name == "TELEGRAM_BOT_TOKEN" then some "123456:ABC"
  else none

/-- A transporter that delivers every mail. -/
def deliveringTransporter : Transporter := ⟨fun _ => .ok ⟨"<1@gmail.com>"⟩⟩

/-- The error of an unreachable gateway. -/
def networkError : JSError := ⟨"Network Error", some "ECONNREFUSED", none, none⟩

/-- A gateway setting in which form posts (WhatsApp) fail and JSON posts
(Telegram) are accepted. -/
def whatsappDownAxios : Axios := fun request =>
  match request.data with
  | .form _ _ _ => .error networkError
  | .json _ _ => .ok ⟨none, some 42⟩

/-- A body without `subject`. -/
def noSubjectBody : JVal :=
  .obj [("message", .str "Hi"), ("channels", .arr [.str "email"])]

/-- A body listing telegram before email. -/
def telegramEmailBody : JVal :=
  .obj [("subject", .str "Test"), ("message", .str "Hi"),
    ("channels", .arr [.str "telegram", .str "email"])]

/-- The scenario body with a malformed e-mail recipient. -/
def badAddressBody : JVal :=
  .obj [("subject", .str "Test"), ("message", .str "Hi"), ("channels", .arr [.str "email"]),
    ("recipients", .obj [("email", .str "bad-address")])]

/-- A body asking for WhatsApp and Telegram delivery. -/
def whatsappTelegramBody : JVal :=
  .obj [("subject", .str "Test"), ("message", .str "Hi"),
    ("channels", .arr [.str "whatsapp", .str "telegram"]),
    ("recipients", .obj [("whatsapp", .str "+628123"), ("telegram", .str "987654")])]

/-- A body asking for Telegram delivery only. -/
def telegramBody : JVal :=
  .obj [("subject", .str "Test"), ("message", .str "Hi"), ("channels", .arr [.str "telegram"]),
    ("recipients", .obj [("telegram", .str "987654")])]

/-- The WhatsApp request built for `whatsappTelegramBody` under `fullEnv`. -/
def demoWhatsappRequest : PostRequest :=
  ⟨"https://api.twilio.com/2010-04-01/Accounts/AC1/Messages.json",
   .form "whatsapp:+14155238886" "whatsapp:+628123"
     "*Test*\n\nHi\n\n_Dikirim dari Solusi Bangun Indonesia_",
   some (some "AC1", some "token"),
   [("Content-Type", "application/x-www-form-urlencoded")]⟩

/-- The Telegram request built for `telegramBody` under `fullEnv`. -/
def demoTelegramRequest : PostRequest :=
  ⟨"https://api.telegram.org/bot123456:ABC/sendMessage",
   .json (.str "987654") "*Test*\n\nHi", none, []⟩

/-- The e-mail handler throws out of the request: the channel is listed, the
transporter was created, and the recipient is truthy but cannot be converted to
a string by the pattern test. -/
def emailThrows (emailTransporter : Option Transporter) (channels recipients : JVal) : Prop :=
  channels.includes "email" = true ∧ emailTransporter.isSome = true ∧
    (recipients.optChain "email").truthy = true ∧ (recipients.optChain "email").toStr = none

/-- The WhatsApp handler throws out of the request: the channel is listed, its
precondition holds, and the recipient cannot be converted to a string. -/
def whatsappThrows (env : Env) (channels recipients : JVal) : Prop :=
  channels.includes "whatsapp" = true ∧ whatsappReady env recipients ∧
    (recipients.optChain "whatsapp").toStr = none

/-- The Telegram handler throws out of the request: the channel is listed, its
precondition holds, and the chat identifier cannot be converted to a string. -/
def telegramThrows (env : Env) (channels recipients : JVal) : Prop :=
  channels.includes "telegram" = true ∧ telegramReady env recipients ∧
    (recipients.optChain "telegram").toStr = none

/-- Some channel handler of the request throws on converting its recipient. -/
def conversionThrows (env : Env) (emailTransporter : Option Transporter) (body : JVal) : Prop :=
  emailThrows emailTransporter (body.optChain "channels") (body.optChain "recipients") ∨
  whatsappThrows env (body.optChain "channels") (body.optChain "recipients") ∨
  telegramThrows env (body.optChain "channels") (body.optChain "recipients")

/-- A gateway setting in which every request is rejected. -/
def rejectingAxios : Axios := fun _ => .error networkError

/-- A body asking for an e-mail to a recipient that is an object with an own
member `toString`. -/
def objectEmailBody : JVal :=
  .obj [("subject", .str "Test"), ("message", .str "Hi"), ("channels", .arr [.str "email"]),
    ("recipients", .obj [("email", .obj [("toString", .str "x")])])]

/-- A body asking for Telegram delivery to a chat identifier that is an object
with an own member `toString`. -/
def objectChatBody : JVal :=
  .obj [("subject", .str "Test"), ("message", .str "Hi"), ("channels", .arr [.str "telegram"]),
    ("recipients", .obj [("telegram", .obj [("toString", .str "x")])])]

/-- The Telegram request built for `objectChatBody` under `fullEnv`. -/
def objectChatRequest : PostRequest :=
  ⟨"https://api.telegram.org/bot123456:ABC/sendMessage",
   .json (.obj [("toString", .str "x")]) "*Test*\n\nHi", none, []⟩

/-! ## Theorems -/

theorem Dispatch.append_empty (st : Dispatch) : st.append Dispatch.empty = st := by
  simp [Dispatch.append, Dispatch.empty]

theorem Dispatch.empty_append (st : Dispatch) : Dispatch.empty.append st = st := by
  simp [Dispatch.append, Dispatch.empty]

theorem Dispatch.append_assoc (a b c : Dispatch) :
    (a.append b).append c = a.append (b.append c) := by
  simp [Dispatch.append]

theorem appendOnly_const (err : Option JSError) : AppendOnly (fun st => (st, err)) := by
  intro st
  simp [Dispatch.append_empty]

theorem appendOnly_push (r : ChannelResult) {block : Dispatch → Step} (h : AppendOnly block) :
    AppendOnly (fun st => block (st.push r)) := by
  intro st
  dsimp only
  rw [h (st.push r), h (Dispatch.empty.push r)]
  simp [Dispatch.append, Dispatch.push, Dispatch.empty]

theorem appendOnly_record (c : Call) {block : Dispatch → Step} (h : AppendOnly block) :
    AppendOnly (fun st => block (st.record c)) := by
  intro st
  dsimp only
  rw [h (st.record c), h (Dispatch.empty.record c)]
  simp [Dispatch.append, Dispatch.record, Dispatch.empty]

theorem appendOnly_logWith (v : JVal) : AppendOnly (logWith v) := by
  intro st
  unfold logWith
  cases v.toJSString <;> simp [Dispatch.append_empty]

theorem appendOnly_tryCatch {body : Dispatch → Step} {handler : JSError → Dispatch → Step}
    (hb : AppendOnly body) (hh : ∀ e, AppendOnly (handler e)) :
    AppendOnly (fun st => tryCatch (body st) handler) := by
  intro st
  dsimp only
  rw [hb st]
  rcases hout : body Dispatch.empty with ⟨b, _ | e⟩
  · simp [tryCatch]
  · simp only [tryCatch]
    rw [hh e (st.append b), hh e b, Dispatch.append_assoc]

theorem appendOnly_andThen {first next : Dispatch → Step}
    (hf : AppendOnly first) (hn : AppendOnly next) :
    AppendOnly (fun st => andThen (first st) next) := by
  intro st
  dsimp only
  rw [hf st]
  rcases hout : first Dispatch.empty with ⟨b, _ | e⟩
  · simp only [andThen]
    rw [hn (st.append b), hn b, Dispatch.append_assoc]
  · simp [andThen]

theorem appendOnly_emailTry (env : Env) (t : Transporter) (s m rcp : JVal) :
    AppendOnly (emailTry env t s m rcp) := by
  unfold emailTry
  rcases mailOptions env s m rcp with e | o
  · exact appendOnly_const (some e)
  · dsimp only
    rcases t.sendMail o with e | info
    · exact appendOnly_record _ (appendOnly_const (some e))
    · exact appendOnly_record _ (appendOnly_push _ (appendOnly_logWith rcp))

theorem appendOnly_emailCatch (rcp : JVal) (e : JSError) : AppendOnly (emailCatch rcp e) := by
  unfold emailCatch
  rcases emailErrorMessage rcp e with e | msg
  · exact appendOnly_const (some e)
  · exact appendOnly_push _ (appendOnly_logWith rcp)

theorem appendOnly_emailBlock (env : Env) (tr : Option Transporter) (s m c r : JVal) :
    AppendOnly (emailBlock env tr s m c r) := by
  unfold emailBlock
  by_cases hc : c.includes "email" = true
  · simp only [hc, if_true]
    cases tr with
    | none => exact appendOnly_push _ (appendOnly_const none)
    | some t =>
      dsimp only
      rcases isValidEmail (r.optChain "email") with e | b
      · exact appendOnly_const (some e)
      · cases b
        · exact appendOnly_push _ (appendOnly_const none)
        · exact appendOnly_tryCatch (appendOnly_emailTry env t s m _) (appendOnly_emailCatch _)
  · simp only [hc]
    exact appendOnly_const none

theorem appendOnly_whatsappBlock (env : Env) (axios : Axios) (s m c r : JVal) :
    AppendOnly (whatsappBlock env axios s m c r) := by
  unfold whatsappBlock
  by_cases hc : c.includes "whatsapp" = true
  · simp only [hc, if_true]
    split
    · refine appendOnly_tryCatch ?_ ?_
      · unfold whatsappTry
        rcases whatsappRequest env s m (r.optChain "whatsapp") with e | q
        · exact appendOnly_const (some e)
        · dsimp only
          rcases axios q with e | resp
          · exact appendOnly_record _ (appendOnly_const (some e))
          · exact appendOnly_record _ (appendOnly_push _ (appendOnly_logWith _))
      · intro e
        exact appendOnly_push _ (appendOnly_logWith _)
    · exact appendOnly_push _ (appendOnly_const none)
  · simp only [hc]
    exact appendOnly_const none

theorem appendOnly_telegramBlock (env : Env) (axios : Axios) (s m c r : JVal) :
    AppendOnly (telegramBlock env axios s m c r) := by
  unfold telegramBlock
  by_cases hc : c.includes "telegram" = true
  · simp only [hc, if_true]
    split
    · refine appendOnly_tryCatch ?_ ?_
      · unfold telegramTry
        rcases telegramRequest env s m (r.optChain "telegram") with e | q
        · exact appendOnly_const (some e)
        · dsimp only
          rcases axios q with e | resp
          · exact appendOnly_record _ (appendOnly_const (some e))
          · exact appendOnly_record _ (appendOnly_push _ (appendOnly_logWith _))
      · intro e
        exact appendOnly_push _ (appendOnly_logWith _)
    · exact appendOnly_push _ (appendOnly_const none)
  · simp only [hc]
    exact appendOnly_const none

theorem toJSString_of_isValidEmail {v : JVal} (h : isValidEmail v = .ok true) :
    ∃ text, v.toJSString = .ok text := by
  unfold isValidEmail at h
  split at h
  · cases h
  · rcases hs : v.toJSString with e | text
    · simp [hs] at h
    · exact ⟨text, rfl⟩

theorem emailErrorMessage_ok {v : JVal} {text : String} (h : v.toJSString = .ok text)
    (error : JSError) : ∃ msg, emailErrorMessage v error = .ok msg := by
  unfold emailErrorMessage
  rw [h]
  split
  · exact ⟨_, rfl⟩
  · split
    · exact ⟨_, rfl⟩
    · split <;> exact ⟨_, rfl⟩

/-- Shape of the e-mail block when its precondition holds: one result, `failed`
or `success`, nothing thrown. -/
theorem emailBlock_ready (env : Env) (t : Transporter) (s m c r : JVal)
    (hc : c.includes "email" = true) (hv : isValidEmail (r.optChain "email") = .ok true) :
    (∃ e msg, mailOptions env s m (r.optChain "email") = .error e ∧
        emailErrorMessage (r.optChain "email") e = .ok msg ∧
        emailBlock env (some t) s m c r Dispatch.empty =
          (⟨[⟨"email", "failed", none, some (msg ++ " " ++ e.message)⟩], []⟩, none)) ∨
    (∃ o e msg, mailOptions env s m (r.optChain "email") = .ok o ∧ t.sendMail o = .error e ∧
        emailErrorMessage (r.optChain "email") e = .ok msg ∧
        emailBlock env (some t) s m c r Dispatch.empty =
          (⟨[⟨"email", "failed", none, some (msg ++ " " ++ e.message)⟩], [.sendMail o]⟩, none)) ∨
    (∃ o info, mailOptions env s m (r.optChain "email") = .ok o ∧ t.sendMail o = .ok info ∧
        emailBlock env (some t) s m c r Dispatch.empty =
          (⟨[⟨"email", "success", some info.messageId, none⟩], [.sendMail o]⟩, none)) := by
  obtain ⟨text, htext⟩ := toJSString_of_isValidEmail hv
  rcases ho : mailOptions env s m (r.optChain "email") with e | o
  · obtain ⟨msg, hmsg⟩ := emailErrorMessage_ok htext e
    refine Or.inl ⟨e, msg, rfl, hmsg, ?_⟩
    simp [emailBlock, hc, hv, tryCatch, emailTry, ho, emailCatch, hmsg, logWith, htext,
      Dispatch.push, Dispatch.empty]
  · rcases hs : t.sendMail o with e | info
    · obtain ⟨msg, hmsg⟩ := emailErrorMessage_ok htext e
      refine Or.inr (Or.inl ⟨o, e, msg, rfl, hs, hmsg, ?_⟩)
      simp [emailBlock, hc, hv, tryCatch, emailTry, ho, hs, emailCatch, hmsg, logWith, htext,
        Dispatch.push, Dispatch.record, Dispatch.empty]
    · refine Or.inr (Or.inr ⟨o, info, rfl, hs, ?_⟩)
      simp [emailBlock, hc, hv, tryCatch, emailTry, ho, hs, logWith, htext,
        Dispatch.push, Dispatch.record, Dispatch.empty]

/-- Shape of the e-mail block when its precondition fails. -/
theorem emailBlock_not_ready (env : Env) (tr : Option Transporter) (s m c r : JVal)
    (hc : c.includes "email" = true) (hn : ¬ emailReady tr r) :
    emailBlock env tr s m c r Dispatch.empty =
        (⟨[⟨"email", "skipped", none,
          some "Email transporter tidak dikonfigurasi atau penerima tidak valid."⟩], []⟩, none) ∨
    ∃ e, emailBlock env tr s m c r Dispatch.empty = (Dispatch.empty, some e) := by
  cases tr with
  | none => left; simp [emailBlock, hc, Dispatch.push, Dispatch.empty]
  | some t =>
    rcases hv : isValidEmail (r.optChain "email") with e | b
    · right; exact ⟨e, by simp [emailBlock, hc, hv]⟩
    · cases b
      · left; simp [emailBlock, hc, hv, Dispatch.push, Dispatch.empty]
      · exact absurd ⟨rfl, hv⟩ hn

theorem emailBlock_absent (env : Env) (tr : Option Transporter) (s m c r : JVal)
    (hc : c.includes "email" = false) :
    emailBlock env tr s m c r Dispatch.empty = (Dispatch.empty, none) := by
  simp [emailBlock, hc]

theorem toJSString_of_whatsappRequest {env : Env} {s m v : JVal} {q : PostRequest}
    (h : whatsappRequest env s m v = .ok q) : ∃ text, v.toJSString = .ok text := by
  unfold whatsappRequest at h
  rcases hs : s.toJSString with e | a
  · simp [hs] at h
  · rcases hm : m.toJSString with e | b
    · simp [hs, hm] at h
    · rcases hv : v.toJSString with e | text
      · simp [hs, hm, hv] at h
      · exact ⟨text, rfl⟩

/-- Shape of the WhatsApp block when its precondition holds. -/
theorem whatsappBlock_ready (env : Env) (axios : Axios) (s m c r : JVal)
    (hc : c.includes "whatsapp" = true) (hr : whatsappReady env r) :
    (∃ e, whatsappRequest env s m (r.optChain "whatsapp") = .error e ∧
        whatsappBlock env axios s m c r Dispatch.empty =
          (⟨[whatsappFailed e], []⟩, (logWith (r.optChain "whatsapp") Dispatch.empty).2)) ∨
    (∃ q e, whatsappRequest env s m (r.optChain "whatsapp") = .ok q ∧ axios q = .error e ∧
        whatsappBlock env axios s m c r Dispatch.empty =
          (⟨[whatsappFailed e], [.post q]⟩, none)) ∨
    (∃ q resp, whatsappRequest env s m (r.optChain "whatsapp") = .ok q ∧ axios q = .ok resp ∧
        whatsappBlock env axios s m c r Dispatch.empty =
          (⟨[⟨"whatsapp", "success", resp.sid, none⟩], [.post q]⟩, none)) := by
  obtain ⟨h1, h2, h3, h4⟩ := hr
  rcases hq : whatsappRequest env s m (r.optChain "whatsapp") with e | q
  · refine Or.inl ⟨e, rfl, ?_⟩
    simp only [whatsappBlock, hc, h1, h2, h3, h4, Bool.and_self, if_true, tryCatch, whatsappTry,
      hq, whatsappCatch, logWith]
    cases (r.optChain "whatsapp").toJSString <;>
      simp [Dispatch.push, Dispatch.empty, whatsappFailed]
  · obtain ⟨text, htext⟩ := toJSString_of_whatsappRequest hq
    rcases ha : axios q with e | resp
    · refine Or.inr (Or.inl ⟨q, e, rfl, ha, ?_⟩)
      simp [whatsappBlock, hc, h1, h2, h3, h4, tryCatch, whatsappTry, hq, ha, whatsappCatch,
        logWith, htext, Dispatch.push, Dispatch.record, Dispatch.empty, whatsappFailed]
    · refine Or.inr (Or.inr ⟨q, resp, rfl, ha, ?_⟩)
      simp [whatsappBlock, hc, h1, h2, h3, h4, tryCatch, whatsappTry, hq, ha,
        logWith, htext, Dispatch.push, Dispatch.record, Dispatch.empty]

/-- Shape of the WhatsApp block when its precondition fails. -/
theorem whatsappBlock_not_ready (env : Env) (axios : Axios) (s m c r : JVal)
    (hc : c.includes "whatsapp" = true) (hn : ¬ whatsappReady env r) :
    whatsappBlock env axios s m c r Dispatch.empty =
      (⟨[⟨"whatsapp", "skipped", none,
        some "Twilio kredensial atau nomor penerima WhatsApp tidak diatur."⟩], []⟩, none) := by
  have hcond : (env.isSet "TWILIO_ACCOUNT_SID" && env.isSet "TWILIO_AUTH_TOKEN" &&
      env.isSet "TWILIO_WHATSAPP_FROM" && (r.optChain "whatsapp").truthy) = false := by
    by_contra hne
    simp only [Bool.not_eq_false, Bool.and_eq_true] at hne
    exact hn ⟨hne.1.1.1, hne.1.1.2, hne.1.2, hne.2⟩
  simp [whatsappBlock, hc, hcond, Dispatch.push, Dispatch.empty]

theorem whatsappBlock_absent (env : Env) (axios : Axios) (s m c r : JVal)
    (hc : c.includes "whatsapp" = false) :
    whatsappBlock env axios s m c r Dispatch.empty = (Dispatch.empty, none) := by
  simp [whatsappBlock, hc]

/-- Shape of the Telegram block when its precondition holds. -/
theorem telegramBlock_ready (env : Env) (axios : Axios) (s m c r : JVal)
    (hc : c.includes "telegram" = true) (hr : telegramReady env r) :
    (∃ e, telegramRequest env s m (r.optChain "telegram") = .error e ∧
        telegramBlock env axios s m c r Dispatch.empty =
          (⟨[telegramFailed e], []⟩, (logWith (r.optChain "telegram") Dispatch.empty).2)) ∨
    (∃ q e, telegramRequest env s m (r.optChain "telegram") = .ok q ∧ axios q = .error e ∧
        telegramBlock env axios s m c r Dispatch.empty =
          (⟨[telegramFailed e], [.post q]⟩, (logWith (r.optChain "telegram") Dispatch.empty).2)) ∨
    (∃ q resp text, telegramRequest env s m (r.optChain "telegram") = .ok q ∧
        axios q = .ok resp ∧ (r.optChain "telegram").toJSString = .ok text ∧
        telegramBlock env axios s m c r Dispatch.empty =
          (⟨[⟨"telegram", "success", none, none⟩], [.post q]⟩, none)) ∨
    (∃ q resp e, telegramRequest env s m (r.optChain "telegram") = .ok q ∧
        axios q = .ok resp ∧ (r.optChain "telegram").toJSString = .error e ∧
        telegramBlock env axios s m c r Dispatch.empty =
          (⟨[⟨"telegram", "success", none, none⟩, telegramFailed e], [.post q]⟩, some e)) := by
  obtain ⟨h1, h2, h3⟩ := hr
  have h2b : (env "TELEGRAM_BOT_TOKEN" != some "your_telegram_bot_token") = true := by
    simpa using h2
  rcases hq : telegramRequest env s m (r.optChain "telegram") with e | q
  · refine Or.inl ⟨e, rfl, ?_⟩
    simp only [telegramBlock, hc, h1, h2b, h3, Bool.and_self, if_true, tryCatch, telegramTry,
      hq, telegramCatch, logWith]
    cases (r.optChain "telegram").toJSString <;>
      simp [Dispatch.push, Dispatch.empty, telegramFailed]
  · rcases ha : axios q with e | resp
    · refine Or.inr (Or.inl ⟨q, e, rfl, ha, ?_⟩)
      simp only [telegramBlock, hc, h1, h2b, h3, Bool.and_self, if_true, tryCatch, telegramTry,
        hq, ha, telegramCatch, logWith]
      cases (r.optChain "telegram").toJSString <;>
        simp [Dispatch.push, Dispatch.record, Dispatch.empty, telegramFailed]
    · rcases ht : (r.optChain "telegram").toJSString with e | text
      · refine Or.inr (Or.inr (Or.inr ⟨q, resp, e, rfl, ha, rfl, ?_⟩))
        simp [telegramBlock, hc, h1, h2b, h3, tryCatch, telegramTry, hq, ha, telegramCatch,
          logWith, ht, Dispatch.push, Dispatch.record, Dispatch.empty, telegramFailed]
      · refine Or.inr (Or.inr (Or.inl ⟨q, resp, text, rfl, ha, rfl, ?_⟩))
        simp [telegramBlock, hc, h1, h2b, h3, tryCatch, telegramTry, hq, ha,
          logWith, ht, Dispatch.push, Dispatch.record, Dispatch.empty]

/-- Shape of the Telegram block when its precondition fails. -/
theorem telegramBlock_not_ready (env : Env) (axios : Axios) (s m c r : JVal)
    (hc : c.includes "telegram" = true) (hn : ¬ telegramReady env r) :
    telegramBlock env axios s m c r Dispatch.empty =
      (⟨[⟨"telegram", "skipped", none,
        some "Token bot Telegram atau chat ID tidak dikonfigurasi."⟩], []⟩, none) := by
  have hcond : (env.isSet "TELEGRAM_BOT_TOKEN" && (r.optChain "telegram").truthy &&
      env "TELEGRAM_BOT_TOKEN" != some "your_telegram_bot_token") = false := by
    by_contra hne
    simp only [Bool.not_eq_false, Bool.and_eq_true, bne_iff_ne] at hne
    exact hn ⟨hne.1.1, hne.2, hne.1.2⟩
  simp [telegramBlock, hc, hcond, Dispatch.push, Dispatch.empty]

theorem telegramBlock_absent (env : Env) (axios : Axios) (s m c r : JVal)
    (hc : c.includes "telegram" = false) :
    telegramBlock env axios s m c r Dispatch.empty = (Dispatch.empty, none) := by
  simp [telegramBlock, hc]

theorem dispatch_eq (env : Env) (tr : Option Transporter) (axios : Axios) (s m c r : JVal) :
    dispatch env tr axios s m c r =
      andThen
        (andThen (emailBlock env tr s m c r Dispatch.empty)
          (fun st => (st.append (whatsappBlock env axios s m c r Dispatch.empty).1,
            (whatsappBlock env axios s m c r Dispatch.empty).2)))
        (fun st => (st.append (telegramBlock env axios s m c r Dispatch.empty).1,
          (telegramBlock env axios s m c r Dispatch.empty).2)) := by
  have hw : whatsappBlock env axios s m c r =
      fun st => (st.append (whatsappBlock env axios s m c r Dispatch.empty).1,
        (whatsappBlock env axios s m c r Dispatch.empty).2) :=
    funext (appendOnly_whatsappBlock env axios s m c r)
  have ht : telegramBlock env axios s m c r =
      fun st => (st.append (telegramBlock env axios s m c r Dispatch.empty).1,
        (telegramBlock env axios s m c r Dispatch.empty).2) :=
    funext (appendOnly_telegramBlock env axios s m c r)
  unfold dispatch
  rw [← hw, ← ht]
  rfl

/-- The three facts about a chain of three append-only blocks. -/
theorem chain_facts (E W T : Step) :
    ((andThen (andThen E (fun st => (st.append W.1, W.2)))
        (fun st => (st.append T.1, T.2))).2 = none ↔
      E.2 = none ∧ W.2 = none ∧ T.2 = none) ∧
    ((andThen (andThen E (fun st => (st.append W.1, W.2)))
        (fun st => (st.append T.1, T.2))).2 = none →
      (andThen (andThen E (fun st => (st.append W.1, W.2)))
        (fun st => (st.append T.1, T.2))).1.results =
        E.1.results ++ W.1.results ++ T.1.results) ∧
    (∀ call ∈ (andThen (andThen E (fun st => (st.append W.1, W.2)))
        (fun st => (st.append T.1, T.2))).1.calls,
      call ∈ E.1.calls ∨ call ∈ W.1.calls ∨ call ∈ T.1.calls) := by
  rcases E with ⟨e, _ | ee⟩ <;> rcases W with ⟨w, _ | we⟩ <;> rcases T with ⟨t, _ | te⟩ <;>
    simp [andThen, Dispatch.append] <;> tauto

/-- Nothing is thrown by `dispatch` exactly when none of the three blocks throws. -/
theorem dispatch_thrown_none (env : Env) (tr : Option Transporter) (axios : Axios)
    (s m c r : JVal) :
    (dispatch env tr axios s m c r).2 = none ↔
      (emailBlock env tr s m c r Dispatch.empty).2 = none ∧
      (whatsappBlock env axios s m c r Dispatch.empty).2 = none ∧
      (telegramBlock env axios s m c r Dispatch.empty).2 = none := by
  rw [dispatch_eq]
  exact (chain_facts _ _ _).1

/-- When nothing is thrown, `results` is what the three blocks pushed, in program order. -/
theorem dispatch_results (env : Env) (tr : Option Transporter) (axios : Axios)
    (s m c r : JVal) (h : (dispatch env tr axios s m c r).2 = none) :
    (dispatch env tr axios s m c r).1.results =
      (emailBlock env tr s m c r Dispatch.empty).1.results ++
      (whatsappBlock env axios s m c r Dispatch.empty).1.results ++
      (telegramBlock env axios s m c r Dispatch.empty).1.results := by
  rw [dispatch_eq] at h ⊢
  exact (chain_facts _ _ _).2.1 h

/-- Every provider call of a request was made by one of the three blocks. -/
theorem dispatch_calls (env : Env) (tr : Option Transporter) (axios : Axios)
    (s m c r : JVal) (call : Call) (h : call ∈ (dispatch env tr axios s m c r).1.calls) :
    call ∈ (emailBlock env tr s m c r Dispatch.empty).1.calls ∨
    call ∈ (whatsappBlock env axios s m c r Dispatch.empty).1.calls ∨
    call ∈ (telegramBlock env axios s m c r Dispatch.empty).1.calls := by
  rw [dispatch_eq] at h
  exact (chain_facts _ _ _).2.2 call h

/-- The handler on a body that can be destructured and passes validation. -/
theorem sendNotification_valid (env : Env) (tr : Option Transporter) (axios : Axios)
    (body : JVal) (hb : body.isNullish = false)
    (hv : invalidRequest (body.optChain "subject") (body.optChain "message")
      (body.optChain "channels") = false) :
    sendNotification env tr axios body =
      match dispatch env tr axios (body.optChain "subject") (body.optChain "message")
          (body.optChain "channels") (body.optChain "recipients") with
      | (st, none) => (aggregate st.results, st.calls)
      | (st, some error) => (internalErrorResponse env error, st.calls) := by
  simp [sendNotification, destructure, hb, hv]

theorem aggregate_results (results : List ChannelResult) :
    (aggregate results).results = some results := by
  unfold aggregate
  dsimp only
  split
  · rfl
  · split <;> rfl

/-- A response that carries `results` comes from the aggregation step. -/
theorem results_some (env : Env) (tr : Option Transporter) (axios : Axios)
    (body : JVal) (results : List ChannelResult)
    (h : (sendNotification env tr axios body).1.results = some results) :
    body.isNullish = false ∧
    invalidRequest (body.optChain "subject") (body.optChain "message")
      (body.optChain "channels") = false ∧
    (dispatch env tr axios (body.optChain "subject") (body.optChain "message")
      (body.optChain "channels") (body.optChain "recipients")).2 = none ∧
    (dispatch env tr axios (body.optChain "subject") (body.optChain "message")
      (body.optChain "channels") (body.optChain "recipients")).1.results = results ∧
    (sendNotification env tr axios body).1 = aggregate results := by
  by_cases hb : body.isNullish = true
  · simp [sendNotification, destructure, hb, internalErrorResponse] at h
  · simp only [Bool.not_eq_true] at hb
    by_cases hv : invalidRequest (body.optChain "subject") (body.optChain "message")
        (body.optChain "channels") = true
    · simp [sendNotification, destructure, hb, hv, validationResponse] at h
    · simp only [Bool.not_eq_true] at hv
      rw [sendNotification_valid env tr axios body hb hv] at h ⊢
      rcases hd : dispatch env tr axios (body.optChain "subject") (body.optChain "message")
          (body.optChain "channels") (body.optChain "recipients") with ⟨st, _ | e⟩
      · simp only [hd, aggregate_results, Option.some.injEq] at h
        subst h
        exact ⟨hb, hv, rfl, rfl, rfl⟩
      · simp [hd, internalErrorResponse] at h

/-- Summary of the e-mail block: channel of its results, number of results,
gating, and calls. -/
theorem emailBlock_summary (env : Env) (tr : Option Transporter) (s m c r : JVal) :
    (∀ x ∈ (emailBlock env tr s m c r Dispatch.empty).1.results, x.channel = "email") ∧
    ((emailBlock env tr s m c r Dispatch.empty).2 = none →
      (emailBlock env tr s m c r Dispatch.empty).1.results.map (fun x => x.channel) =
        if c.includes "email" then ["email"] else []) ∧
    ((emailBlock env tr s m c r Dispatch.empty).2 = none →
      ∀ x ∈ (emailBlock env tr s m c r Dispatch.empty).1.results,
        (x.status = "skipped" ↔ ¬ emailReady tr r)) ∧
    (¬ emailReady tr r → (emailBlock env tr s m c r Dispatch.empty).1.calls = []) ∧
    (∀ call ∈ (emailBlock env tr s m c r Dispatch.empty).1.calls, call.isMail = true) := by
  by_cases hc : c.includes "email" = true
  · by_cases hr : emailReady tr r
    · obtain ⟨hsome, hv⟩ := hr
      obtain ⟨t, rfl⟩ := Option.isSome_iff_exists.mp hsome
      have hr : emailReady (some t) r := ⟨hsome, hv⟩
      rcases emailBlock_ready env t s m c r hc hv with
        ⟨e, msg, _, _, h⟩ | ⟨o, e, msg, _, _, _, h⟩ | ⟨o, info, _, _, h⟩ <;>
        (rw [h]; simp [hc, hr, Call.isMail])
    · rcases emailBlock_not_ready env tr s m c r hc hr with h | ⟨e, h⟩ <;>
        (rw [h]; simp [hc, hr, Dispatch.empty])
  · simp only [Bool.not_eq_true] at hc
    rw [emailBlock_absent env tr s m c r hc]
    simp [hc, Dispatch.empty]

/-- Summary of the WhatsApp block. -/
theorem whatsappBlock_summary (env : Env) (axios : Axios) (s m c r : JVal) :
    (∀ x ∈ (whatsappBlock env axios s m c r Dispatch.empty).1.results, x.channel = "whatsapp") ∧
    ((whatsappBlock env axios s m c r Dispatch.empty).2 = none →
      (whatsappBlock env axios s m c r Dispatch.empty).1.results.map (fun x => x.channel) =
        if c.includes "whatsapp" then ["whatsapp"] else []) ∧
    ((whatsappBlock env axios s m c r Dispatch.empty).2 = none →
      ∀ x ∈ (whatsappBlock env axios s m c r Dispatch.empty).1.results,
        (x.status = "skipped" ↔ ¬ whatsappReady env r)) ∧
    (¬ whatsappReady env r → (whatsappBlock env axios s m c r Dispatch.empty).1.calls = []) ∧
    (∀ call ∈ (whatsappBlock env axios s m c r Dispatch.empty).1.calls,
      ∃ q, whatsappRequest env s m (r.optChain "whatsapp") = .ok q ∧ call = .post q) := by
  by_cases hc : c.includes "whatsapp" = true
  · by_cases hr : whatsappReady env r
    · rcases whatsappBlock_ready env axios s m c r hc hr with
        ⟨e, hq, h⟩ | ⟨q, e, hq, _, h⟩ | ⟨q, resp, hq, _, h⟩ <;>
        (rw [h]; simp [hc, hr, hq, whatsappFailed])
    · rw [whatsappBlock_not_ready env axios s m c r hc hr]
      simp [hc, hr]
  · simp only [Bool.not_eq_true] at hc
    rw [whatsappBlock_absent env axios s m c r hc]
    simp [hc, Dispatch.empty]

/-- Summary of the Telegram block. -/
theorem telegramBlock_summary (env : Env) (axios : Axios) (s m c r : JVal) :
    (∀ x ∈ (telegramBlock env axios s m c r Dispatch.empty).1.results, x.channel = "telegram") ∧
    ((telegramBlock env axios s m c r Dispatch.empty).2 = none →
      (telegramBlock env axios s m c r Dispatch.empty).1.results.map (fun x => x.channel) =
        if c.includes "telegram" then ["telegram"] else []) ∧
    ((telegramBlock env axios s m c r Dispatch.empty).2 = none →
      ∀ x ∈ (telegramBlock env axios s m c r Dispatch.empty).1.results,
        (x.status = "skipped" ↔ ¬ telegramReady env r)) ∧
    (¬ telegramReady env r → (telegramBlock env axios s m c r Dispatch.empty).1.calls = []) ∧
    (∀ call ∈ (telegramBlock env axios s m c r Dispatch.empty).1.calls,
      ∃ q, telegramRequest env s m (r.optChain "telegram") = .ok q ∧ call = .post q) := by
  by_cases hc : c.includes "telegram" = true
  · by_cases hr : telegramReady env r
    · rcases telegramBlock_ready env axios s m c r hc hr with
        ⟨e, hq, h⟩ | ⟨q, e, hq, _, h⟩ | ⟨q, resp, text, hq, _, _, h⟩ | ⟨q, resp, e, hq, _, _, h⟩ <;>
        (rw [h]; simp [hc, hr, hq, telegramFailed])
    · rw [telegramBlock_not_ready env axios s m c r hc hr]
      simp [hc, hr]
  · simp only [Bool.not_eq_true] at hc
    rw [telegramBlock_absent env axios s m c r hc]
    simp [hc, Dispatch.empty]

theorem sendNotification_run (env : Env) (tr : Option Transporter) (axios : Axios)
    (body : JVal) (hv : passesValidation body = true) :
    sendNotification env tr axios body =
      match run env tr axios body with
      | (st, none) => (aggregate st.results, st.calls)
      | (st, some error) => (internalErrorResponse env error, st.calls) := by
  simp only [passesValidation, Bool.and_eq_true, Bool.not_eq_true'] at hv
  exact sendNotification_valid env tr axios body hv.1 hv.2

theorem sendNotification_completes (env : Env) (tr : Option Transporter) (axios : Axios)
    (body : JVal) (hv : passesValidation body = true) (hd : (run env tr axios body).2 = none) :
    sendNotification env tr axios body =
      (aggregate (run env tr axios body).1.results, (run env tr axios body).1.calls) := by
  rw [sendNotification_run env tr axios body hv]
  rcases hrun : run env tr axios body with ⟨st, _ | e⟩
  · rfl
  · rw [hrun] at hd; cases hd

theorem sendNotification_throws (env : Env) (tr : Option Transporter) (axios : Axios)
    (body : JVal) (hv : passesValidation body = true) (e : JSError)
    (hd : (run env tr axios body).2 = some e) :
    sendNotification env tr axios body =
      (internalErrorResponse env e, (run env tr axios body).1.calls) := by
  rw [sendNotification_run env tr axios body hv]
  rcases hrun : run env tr axios body with ⟨st, _ | e2⟩
  · rw [hrun] at hd; cases hd
  · rw [hrun] at hd; cases hd; rfl

theorem channelsWith_length_pos (status : String) (results : List ChannelResult) :
    (channelsWith status results).length > 0 ↔ ∃ r ∈ results, r.status = status := by
  unfold channelsWith
  rw [List.length_map, gt_iff_lt, List.length_pos_iff_exists_mem]
  constructor
  · rintro ⟨r, hr⟩
    rw [List.mem_filter] at hr
    exact ⟨r, hr.1, by simpa using hr.2⟩
  · rintro ⟨r, hr, hs⟩
    exact ⟨r, List.mem_filter.mpr ⟨hr, by simpa using hs⟩⟩

/-- Aggregation on an arbitrary list of results. -/
theorem aggregate_law (results : List ChannelResult) :
    ((∃ r ∈ results, r.status = "success") →
      (aggregate results).status = 200 ∧ (aggregate results).success = true) ∧
    ((¬ ∃ r ∈ results, r.status = "success") → (∃ r ∈ results, r.status = "failed") →
      (aggregate results).status = 400 ∧ (aggregate results).success = false) ∧
    ((¬ ∃ r ∈ results, r.status = "success") → (¬ ∃ r ∈ results, r.status = "failed") →
      (aggregate results).status = 200 ∧ (aggregate results).success = true) := by
  simp only [← channelsWith_length_pos]
  unfold aggregate
  dsimp only
  refine ⟨fun h => ?_, fun h1 h2 => ?_, fun h1 h2 => ?_⟩
  · rw [if_pos h]; exact ⟨rfl, rfl⟩
  · rw [if_neg h1, if_pos h2]; exact ⟨rfl, rfl⟩
  · rw [if_neg h1, if_neg h2]; exact ⟨rfl, rfl⟩

/-- C1. Aggregation law: for every request that passes validation and whose
channel handlers complete (nothing is thrown out of them), the response is 200
with `success = true` when some result is `success`; 400 with `success = false`
when no result is `success` and some result is `failed`; 200 with
`success = true` when no result is `success` or `failed`.  Equivalently the
code is 400 iff there is no success and some failure, and `success` is true iff
the code is 200. -/
theorem aggregation_law (env : Env) (emailTransporter : Option Transporter) (axios : Axios)
    (body : JVal) (hv : passesValidation body = true)
    (hd : (run env emailTransporter axios body).2 = none) :
    (sendNotification env emailTransporter axios body).1.results =
      some (run env emailTransporter axios body).1.results ∧
    ((∃ r ∈ (run env emailTransporter axios body).1.results, r.status = "success") →
      (sendNotification env emailTransporter axios body).1.status = 200 ∧
      (sendNotification env emailTransporter axios body).1.success = true) ∧
    ((¬ ∃ r ∈ (run env emailTransporter axios body).1.results, r.status = "success") →
      (∃ r ∈ (run env emailTransporter axios body).1.results, r.status = "failed") →
      (sendNotification env emailTransporter axios body).1.status = 400 ∧
      (sendNotification env emailTransporter axios body).1.success = false) ∧
    ((¬ ∃ r ∈ (run env emailTransporter axios body).1.results, r.status = "success") →
      (¬ ∃ r ∈ (run env emailTransporter axios body).1.results, r.status = "failed") →
      (sendNotification env emailTransporter axios body).1.status = 200 ∧
      (sendNotification env emailTransporter axios body).1.success = true) ∧
    ((sendNotification env emailTransporter axios body).1.status = 400 ↔
      (¬ ∃ r ∈ (run env emailTransporter axios body).1.results, r.status = "success") ∧
      ∃ r ∈ (run env emailTransporter axios body).1.results, r.status = "failed") ∧
    ((sendNotification env emailTransporter axios body).1.success = true ↔
      (sendNotification env emailTransporter axios body).1.status = 200) := by
  rw [sendNotification_completes env emailTransporter axios body hv hd]
  dsimp only
  obtain ⟨h1, h2, h3⟩ := aggregate_law (run env emailTransporter axios body).1.results
  refine ⟨aggregate_results _, h1, h2, h3, ?_, ?_⟩
  · by_cases hs : ∃ r ∈ (run env emailTransporter axios body).1.results, r.status = "success"
    · have := h1 hs
      constructor
      · intro h; omega
      · intro h; exact absurd hs h.1
    · by_cases hf : ∃ r ∈ (run env emailTransporter axios body).1.results, r.status = "failed"
      · have := h2 hs hf
        exact ⟨fun _ => ⟨hs, hf⟩, fun _ => this.1⟩
      · have := h3 hs hf
        constructor
        · intro h; omega
        · intro h; exact absurd h.2 hf
  · by_cases hs : ∃ r ∈ (run env emailTransporter axios body).1.results, r.status = "success"
    · have := h1 hs
      simp [this.1, this.2]
    · by_cases hf : ∃ r ∈ (run env emailTransporter axios body).1.results, r.status = "failed"
      · have := h2 hs hf
        simp [this.1, this.2]
      · have := h3 hs hf
        simp [this.1, this.2]

/-- C2. Validation of missing fields: for every request body in which `subject`
is missing or empty, or `message` is missing or empty, or `channels` is missing,
not an array or an empty array, the response is 400 with `success = false`, no
results list is built and no provider call is made. -/
theorem validation_missing_fields (env : Env) (emailTransporter : Option Transporter)
    (axios : Axios) (body : JVal) (hb : body.isNullish = false)
    (hbad : body.optChain "subject" = .undefined ∨ body.optChain "subject" = .str "" ∨
      body.optChain "message" = .undefined ∨ body.optChain "message" = .str "" ∨
      body.optChain "channels" = .undefined ∨ (body.optChain "channels").isArray = false ∨
      body.optChain "channels" = .arr []) :
    (sendNotification env emailTransporter axios body).1.status = 400 ∧
    (sendNotification env emailTransporter axios body).1.success = false ∧
    (sendNotification env emailTransporter axios body).1.results = none ∧
    (sendNotification env emailTransporter axios body).2 = [] := by
  have hinv : invalidRequest (body.optChain "subject") (body.optChain "message")
      (body.optChain "channels") = true := by
    unfold invalidRequest
    rcases hbad with h | h | h | h | h | h | h <;>
      (simp only [h]; simp [JVal.truthy, JVal.isArray, JVal.length])
  simp [sendNotification, destructure, hb, hinv, validationResponse]

/-- C3, amended. Validation looks only at the truthiness of `subject` and
`message` and at `channels` being a non-empty array, never at the elements of
`channels`: every such request passes validation, and when `channels` holds none
of the identifiers `email`, `whatsapp`, `telegram` the response is 200 with
`success = true`, an empty results list and no provider call. -/
theorem validation_ignores_identifiers (env : Env) (emailTransporter : Option Transporter)
    (axios : Axios) (body : JVal) (items : List JVal) (hb : body.isNullish = false)
    (hs : (body.optChain "subject").truthy = true)
    (hm : (body.optChain "message").truthy = true)
    (hc : body.optChain "channels" = .arr items) (hne : items ≠ []) :
    passesValidation body = true ∧
    (((body.optChain "channels").includes "email" = false ∧
      (body.optChain "channels").includes "whatsapp" = false ∧
      (body.optChain "channels").includes "telegram" = false) →
      sendNotification env emailTransporter axios body =
        (⟨200, true, "Notifikasi berhasil diproses.", some [], none⟩, [])) := by
  have hv : passesValidation body = true := by
    cases items with
    | nil => exact absurd rfl hne
    | cons a rest =>
      have h1 : (JVal.arr (a :: rest)).truthy = true := rfl
      have h2 : (JVal.arr (a :: rest)).isArray = true := rfl
      have h3 : (JVal.arr (a :: rest)).length = rest.length + 1 := rfl
      simp [passesValidation, invalidRequest, hb, hs, hm, hc, h1, h2, h3]
  refine ⟨hv, fun hno => ?_⟩
  obtain ⟨h1, h2, h3⟩ := hno
  have hrun : run env emailTransporter axios body = (Dispatch.empty, none) := by
    unfold run
    rw [dispatch_eq, emailBlock_absent _ _ _ _ _ _ h1, whatsappBlock_absent _ _ _ _ _ _ h2,
      telegramBlock_absent _ _ _ _ _ _ h3]
    rfl
  rw [sendNotification_completes env emailTransporter axios body hv (by rw [hrun]), hrun]
  exact Prod.ext (by decide) rfl

/-- C4, amended. For every request that passes validation and whose channel
handlers complete, the channels of the results are the recognized identifiers
that occur in `channels`, once each and in the fixed order email, whatsapp,
telegram. -/
theorem results_in_program_order (env : Env) (emailTransporter : Option Transporter)
    (axios : Axios) (body : JVal) (hv : passesValidation body = true)
    (hd : (run env emailTransporter axios body).2 = none) :
    ∃ results, (sendNotification env emailTransporter axios body).1.results = some results ∧
      results.map (fun r => r.channel) =
        ["email", "whatsapp", "telegram"].filter
          (fun c => (body.optChain "channels").includes c) := by
  refine ⟨(run env emailTransporter axios body).1.results, ?_, ?_⟩
  · rw [sendNotification_completes env emailTransporter axios body hv hd]
    exact aggregate_results _
  · unfold run at hd ⊢
    rw [dispatch_results _ _ _ _ _ _ _ hd]
    obtain ⟨he, hw, ht⟩ := (dispatch_thrown_none _ _ _ _ _ _ _).mp hd
    rw [List.map_append, List.map_append,
      (emailBlock_summary _ _ _ _ _ _).2.1 he,
      (whatsappBlock_summary _ _ _ _ _ _).2.1 hw,
      (telegramBlock_summary _ _ _ _ _ _).2.1 ht]
    rcases h1 : (body.optChain "channels").includes "email" <;>
    rcases h2 : (body.optChain "channels").includes "whatsapp" <;>
    rcases h3 : (body.optChain "channels").includes "telegram" <;>
    simp [List.filter, h1, h2, h3]

theorem whatsappRequest_url {env : Env} {s m v : JVal} {q : PostRequest}
    (h : whatsappRequest env s m v = .ok q) :
    q.url = "https://api.twilio.com/2010-04-01/Accounts/" ++ env.text "TWILIO_ACCOUNT_SID" ++
      "/Messages.json" := by
  unfold whatsappRequest at h
  rcases hs : s.toJSString with e | a
  · simp [hs] at h
  · rcases hm : m.toJSString with e | b
    · simp [hs, hm] at h
    · rcases hv : v.toJSString with e | text
      · simp [hs, hm, hv] at h
      · simp only [hs, hm, hv, Except.ok.injEq] at h
        rw [← h]

theorem telegramRequest_url {env : Env} {s m v : JVal} {q : PostRequest}
    (h : telegramRequest env s m v = .ok q) :
    q.url = "https://api.telegram.org/bot" ++ env.text "TELEGRAM_BOT_TOKEN" ++ "/sendMessage" := by
  unfold telegramRequest at h
  rcases hs : s.toJSString with e | a
  · simp [hs] at h
  · rcases hm : m.toJSString with e | b
    · simp [hs, hm] at h
    · simp only [hs, hm, Except.ok.injEq] at h
      rw [← h]

theorem whatsappRequest_isPostTo {env : Env} {s m v : JVal} {q : PostRequest}
    (h : whatsappRequest env s m v = .ok q) :
    (Call.post q).isPostTo twilioBase = true ∧ (Call.post q).isPostTo telegramBase = false := by
  have h2 : twilioBase.data =
      ['h','t','t','p','s',':','/','/','a','p','i','.','t','w','i','l','i','o','.','c','o','m','/'] := by
    decide
  have h3 : telegramBase.data =
      ['h','t','t','p','s',':','/','/','a','p','i','.','t','e','l','e','g','r','a','m','.','o','r','g','/'] := by
    decide
  simp only [Call.isPostTo, whatsappRequest_url h, String.toList, String.data_append]
  rw [h2, h3]
  simp [List.isPrefixOf]

theorem telegramRequest_isPostTo {env : Env} {s m v : JVal} {q : PostRequest}
    (h : telegramRequest env s m v = .ok q) :
    (Call.post q).isPostTo telegramBase = true ∧ (Call.post q).isPostTo twilioBase = false := by
  have h2 : twilioBase.data =
      ['h','t','t','p','s',':','/','/','a','p','i','.','t','w','i','l','i','o','.','c','o','m','/'] := by
    decide
  have h3 : telegramBase.data =
      ['h','t','t','p','s',':','/','/','a','p','i','.','t','e','l','e','g','r','a','m','.','o','r','g','/'] := by
    decide
  simp only [Call.isPostTo, telegramRequest_url h, String.toList, String.data_append]
  rw [h2, h3]
  simp [List.isPrefixOf]

theorem filter_channel_same {a : String} {l : List ChannelResult}
    (h : ∀ x ∈ l, x.channel = a) : l.filter (fun x => x.channel == a) = l := by
  rw [List.filter_eq_self]
  intro x hx
  simp [h x hx]

theorem filter_channel_other {a b : String} {l : List ChannelResult}
    (h : ∀ x ∈ l, x.channel = b) (hab : b ≠ a) : l.filter (fun x => x.channel == a) = [] := by
  rw [List.filter_eq_nil_iff]
  intro x hx
  simp [h x hx, hab]

theorem singleton_of_map_channel {l : List ChannelResult} {a : String}
    (h : l.map (fun x => x.channel) = [a]) : ∃ r, l = [r] := by
  match l, h with
  | [r], _ => exact ⟨r, rfl⟩

/-- The results and calls of a completed request, split by block. -/
theorem run_results (env : Env) (tr : Option Transporter) (axios : Axios) (body : JVal)
    (hd : (run env tr axios body).2 = none) :
    (emailBlock env tr (body.optChain "subject") (body.optChain "message")
      (body.optChain "channels") (body.optChain "recipients") Dispatch.empty).2 = none ∧
    (whatsappBlock env axios (body.optChain "subject") (body.optChain "message")
      (body.optChain "channels") (body.optChain "recipients") Dispatch.empty).2 = none ∧
    (telegramBlock env axios (body.optChain "subject") (body.optChain "message")
      (body.optChain "channels") (body.optChain "recipients") Dispatch.empty).2 = none ∧
    (run env tr axios body).1.results =
      (emailBlock env tr (body.optChain "subject") (body.optChain "message")
        (body.optChain "channels") (body.optChain "recipients") Dispatch.empty).1.results ++
      (whatsappBlock env axios (body.optChain "subject") (body.optChain "message")
        (body.optChain "channels") (body.optChain "recipients") Dispatch.empty).1.results ++
      (telegramBlock env axios (body.optChain "subject") (body.optChain "message")
        (body.optChain "channels") (body.optChain "recipients") Dispatch.empty).1.results := by
  unfold run at hd ⊢
  obtain ⟨he, hw, ht⟩ := (dispatch_thrown_none _ _ _ _ _ _ _).mp hd
  exact ⟨he, hw, ht, dispatch_results _ _ _ _ _ _ _ hd⟩

/-- The calls of any response come from the call log of `run`. -/
theorem sendNotification_calls (env : Env) (tr : Option Transporter) (axios : Axios)
    (body : JVal) (hv : passesValidation body = true) :
    (sendNotification env tr axios body).2 = (run env tr axios body).1.calls := by
  rw [sendNotification_run env tr axios body hv]
  rcases run env tr axios body with ⟨st, _ | e⟩ <;> rfl

/-- A response with results is the aggregation of a completed run. -/
theorem results_of_response (env : Env) (tr : Option Transporter) (axios : Axios)
    (body : JVal) (results : List ChannelResult)
    (h : (sendNotification env tr axios body).1.results = some results) :
    (run env tr axios body).2 = none ∧ (run env tr axios body).1.results = results := by
  obtain ⟨_, _, h3, h4, _⟩ := results_some env tr axios body results h
  exact ⟨h3, h4⟩

/-- Gating on the results of a response: for every request that passes
validation and every listed channel, a response that holds results holds exactly
one result of that channel, `skipped` exactly when the precondition of the
channel fails; when the precondition fails the provider of the channel is not
called; an absent recipient makes the precondition fail. -/
theorem gating_of_results (env : Env) (emailTransporter : Option Transporter) (axios : Axios)
    (body : JVal) (hv : passesValidation body = true) :
    ((body.optChain "channels").includes "email" = true →
      (¬ emailReady emailTransporter (body.optChain "recipients") →
        ∀ call ∈ (sendNotification env emailTransporter axios body).2, call.isMail = false) ∧
      (∀ results, (sendNotification env emailTransporter axios body).1.results = some results →
        ∃ r, results.filter (fun x => x.channel == "email") = [r] ∧
          (r.status = "skipped" ↔ ¬ emailReady emailTransporter (body.optChain "recipients")))) ∧
    ((body.optChain "channels").includes "whatsapp" = true →
      (¬ whatsappReady env (body.optChain "recipients") →
        ∀ call ∈ (sendNotification env emailTransporter axios body).2,
          call.isPostTo twilioBase = false) ∧
      (∀ results, (sendNotification env emailTransporter axios body).1.results = some results →
        ∃ r, results.filter (fun x => x.channel == "whatsapp") = [r] ∧
          (r.status = "skipped" ↔ ¬ whatsappReady env (body.optChain "recipients")))) ∧
    ((body.optChain "channels").includes "telegram" = true →
      (¬ telegramReady env (body.optChain "recipients") →
        ∀ call ∈ (sendNotification env emailTransporter axios body).2,
          call.isPostTo telegramBase = false) ∧
      (∀ results, (sendNotification env emailTransporter axios body).1.results = some results →
        ∃ r, results.filter (fun x => x.channel == "telegram") = [r] ∧
          (r.status = "skipped" ↔ ¬ telegramReady env (body.optChain "recipients")))) ∧
    (((body.optChain "recipients").optChain "email").isNullish = true →
      ¬ emailReady emailTransporter (body.optChain "recipients")) ∧
    (((body.optChain "recipients").optChain "whatsapp").isNullish = true →
      ¬ whatsappReady env (body.optChain "recipients")) ∧
    (((body.optChain "recipients").optChain "telegram").isNullish = true →
      ¬ telegramReady env (body.optChain "recipients")) := by
  obtain ⟨e1, e2, e3, e4, e5⟩ := emailBlock_summary env emailTransporter
    (body.optChain "subject") (body.optChain "message") (body.optChain "channels")
    (body.optChain "recipients")
  obtain ⟨w1, w2, w3, w4, w5⟩ := whatsappBlock_summary env axios
    (body.optChain "subject") (body.optChain "message") (body.optChain "channels")
    (body.optChain "recipients")
  obtain ⟨t1, t2, t3, t4, t5⟩ := telegramBlock_summary env axios
    (body.optChain "subject") (body.optChain "message") (body.optChain "channels")
    (body.optChain "recipients")
  have hcalls := dispatch_calls env emailTransporter axios
    (body.optChain "subject") (body.optChain "message") (body.optChain "channels")
    (body.optChain "recipients")
  rw [sendNotification_calls env emailTransporter axios body hv]
  refine ⟨fun hc => ⟨fun hn call hcall => ?_, fun results hres => ?_⟩,
    fun hc => ⟨fun hn call hcall => ?_, fun results hres => ?_⟩,
    fun hc => ⟨fun hn call hcall => ?_, fun results hres => ?_⟩, ?_, ?_, ?_⟩
  · rcases hcalls call hcall with h | h | h
    · rw [e4 hn] at h; cases h
    · obtain ⟨q, _, rfl⟩ := w5 call h; rfl
    · obtain ⟨q, _, rfl⟩ := t5 call h; rfl
  · obtain ⟨hd, hr⟩ := results_of_response env emailTransporter axios body results hres
    obtain ⟨he, hw, ht, hsplit⟩ := run_results env emailTransporter axios body hd
    rw [← hr, hsplit, List.filter_append, List.filter_append, filter_channel_same e1,
      filter_channel_other w1 (by decide), filter_channel_other t1 (by decide)]
    have hmap := e2 he
    rw [if_pos hc] at hmap
    obtain ⟨r, hrr⟩ := singleton_of_map_channel hmap
    refine ⟨r, by simp [hrr], e3 he r (by simp [hrr])⟩
  · rcases hcalls call hcall with h | h | h
    · have := e5 call h
      cases call with
      | sendMail o => rfl
      | post q => simp [Call.isMail] at this
    · rw [w4 hn] at h; cases h
    · obtain ⟨q, hq, rfl⟩ := t5 call h
      exact (telegramRequest_isPostTo hq).2
  · obtain ⟨hd, hr⟩ := results_of_response env emailTransporter axios body results hres
    obtain ⟨he, hw, ht, hsplit⟩ := run_results env emailTransporter axios body hd
    rw [← hr, hsplit, List.filter_append, List.filter_append, filter_channel_same w1,
      filter_channel_other e1 (by decide), filter_channel_other t1 (by decide)]
    have hmap := w2 hw
    rw [if_pos hc] at hmap
    obtain ⟨r, hrr⟩ := singleton_of_map_channel hmap
    refine ⟨r, by simp [hrr], w3 hw r (by simp [hrr])⟩
  · rcases hcalls call hcall with h | h | h
    · have := e5 call h
      cases call with
      | sendMail o => rfl
      | post q => simp [Call.isMail] at this
    · obtain ⟨q, hq, rfl⟩ := w5 call h
      exact (whatsappRequest_isPostTo hq).2
    · rw [t4 hn] at h; cases h
  · obtain ⟨hd, hr⟩ := results_of_response env emailTransporter axios body results hres
    obtain ⟨he, hw, ht, hsplit⟩ := run_results env emailTransporter axios body hd
    rw [← hr, hsplit, List.filter_append, List.filter_append, filter_channel_same t1,
      filter_channel_other e1 (by decide), filter_channel_other w1 (by decide)]
    have hmap := t2 ht
    rw [if_pos hc] at hmap
    obtain ⟨r, hrr⟩ := singleton_of_map_channel hmap
    refine ⟨r, by simp [hrr], t3 ht r (by simp [hrr])⟩
  · intro hnull hready
    have hv2 := hready.2
    cases hx : (body.optChain "recipients").optChain "email" <;>
      simp [hx, JVal.isNullish, isValidEmail, JVal.truthy] at hnull hv2
  · intro hnull hready
    have hv2 := hready.2.2.2
    cases hx : (body.optChain "recipients").optChain "whatsapp" <;>
      simp [hx, JVal.isNullish, JVal.truthy] at hnull hv2
  · intro hnull hready
    have hv2 := hready.2.2
    cases hx : (body.optChain "recipients").optChain "telegram" <;>
      simp [hx, JVal.isNullish, JVal.truthy] at hnull hv2

/-- What the e-mail block throws does not depend on the transporter's answers. -/
theorem emailBlock_thrown_indep (env : Env) (t t' : Transporter) (s m c r : JVal) :
    (emailBlock env (some t) s m c r Dispatch.empty).2 =
      (emailBlock env (some t') s m c r Dispatch.empty).2 := by
  by_cases hc : c.includes "email" = true
  · rcases hv : isValidEmail (r.optChain "email") with e | b
    · simp [emailBlock, hc, hv]
    · cases b
      · simp [emailBlock, hc, hv]
      · have h1 : (emailBlock env (some t) s m c r Dispatch.empty).2 = none := by
          rcases emailBlock_ready env t s m c r hc hv with
            ⟨_, _, _, _, h⟩ | ⟨_, _, _, _, _, _, h⟩ | ⟨_, _, _, _, h⟩ <;> rw [h]
        have h2 : (emailBlock env (some t') s m c r Dispatch.empty).2 = none := by
          rcases emailBlock_ready env t' s m c r hc hv with
            ⟨_, _, _, _, h⟩ | ⟨_, _, _, _, _, _, h⟩ | ⟨_, _, _, _, h⟩ <;> rw [h]
        rw [h1, h2]
  · simp only [Bool.not_eq_true] at hc
    rw [emailBlock_absent _ _ _ _ _ _ hc, emailBlock_absent _ _ _ _ _ _ hc]

/-- What the WhatsApp block throws does not depend on the gateway's answers. -/
theorem whatsappBlock_thrown_indep (env : Env) (axios axios' : Axios) (s m c r : JVal) :
    (whatsappBlock env axios s m c r Dispatch.empty).2 =
      (whatsappBlock env axios' s m c r Dispatch.empty).2 := by
  by_cases hc : c.includes "whatsapp" = true
  · by_cases hr : whatsappReady env r
    · rcases hq : whatsappRequest env s m (r.optChain "whatsapp") with e | q
      · have h1 : (whatsappBlock env axios s m c r Dispatch.empty).2 =
            (logWith (r.optChain "whatsapp") Dispatch.empty).2 := by
          rcases whatsappBlock_ready env axios s m c r hc hr with
            ⟨_, _, h⟩ | ⟨_, _, h0, _, _⟩ | ⟨_, _, h0, _, _⟩
          · rw [h]
          · rw [hq] at h0; cases h0
          · rw [hq] at h0; cases h0
        have h2 : (whatsappBlock env axios' s m c r Dispatch.empty).2 =
            (logWith (r.optChain "whatsapp") Dispatch.empty).2 := by
          rcases whatsappBlock_ready env axios' s m c r hc hr with
            ⟨_, _, h⟩ | ⟨_, _, h0, _, _⟩ | ⟨_, _, h0, _, _⟩
          · rw [h]
          · rw [hq] at h0; cases h0
          · rw [hq] at h0; cases h0
        rw [h1, h2]
      · have h1 : (whatsappBlock env axios s m c r Dispatch.empty).2 = none := by
          rcases whatsappBlock_ready env axios s m c r hc hr with
            ⟨_, h0, _⟩ | ⟨_, _, _, _, h⟩ | ⟨_, _, _, _, h⟩
          · rw [hq] at h0; cases h0
          · rw [h]
          · rw [h]
        have h2 : (whatsappBlock env axios' s m c r Dispatch.empty).2 = none := by
          rcases whatsappBlock_ready env axios' s m c r hc hr with
            ⟨_, h0, _⟩ | ⟨_, _, _, _, h⟩ | ⟨_, _, _, _, h⟩
          · rw [hq] at h0; cases h0
          · rw [h]
          · rw [h]
        rw [h1, h2]
    · rw [whatsappBlock_not_ready _ _ _ _ _ _ hc hr, whatsappBlock_not_ready _ _ _ _ _ _ hc hr]
  · simp only [Bool.not_eq_true] at hc
    rw [whatsappBlock_absent _ _ _ _ _ _ hc, whatsappBlock_absent _ _ _ _ _ _ hc]

theorem logWith_thrown (v : JVal) :
    (∀ text, v.toJSString = .ok text → (logWith v Dispatch.empty).2 = none) ∧
    (∀ e, v.toJSString = .error e → (logWith v Dispatch.empty).2 = some e) := by
  unfold logWith
  constructor
  · intro text h; rw [h]
  · intro e h; rw [h]

/-- What a precondition-satisfying Telegram block throws is what the conversion
of the chat identifier throws. -/
theorem telegramBlock_thrown_ready (env : Env) (axios : Axios) (s m c r : JVal)
    (hc : c.includes "telegram" = true) (hr : telegramReady env r) :
    (telegramBlock env axios s m c r Dispatch.empty).2 =
      (logWith (r.optChain "telegram") Dispatch.empty).2 := by
  rcases telegramBlock_ready env axios s m c r hc hr with
    ⟨_, _, h⟩ | ⟨_, _, _, _, h⟩ | ⟨_, _, text, _, _, ht, h⟩ | ⟨_, _, e, _, _, ht, h⟩
  · rw [h]
  · rw [h]
  · rw [h, (logWith_thrown _).1 text ht]
  · rw [h, (logWith_thrown _).2 e ht]

/-- What the Telegram block throws does not depend on the gateway's answers. -/
theorem telegramBlock_thrown_indep (env : Env) (axios axios' : Axios) (s m c r : JVal) :
    (telegramBlock env axios s m c r Dispatch.empty).2 =
      (telegramBlock env axios' s m c r Dispatch.empty).2 := by
  by_cases hc : c.includes "telegram" = true
  · by_cases hr : telegramReady env r
    · rw [telegramBlock_thrown_ready _ _ _ _ _ _ hc hr, telegramBlock_thrown_ready _ _ _ _ _ _ hc hr]
    · rw [telegramBlock_not_ready _ _ _ _ _ _ hc hr, telegramBlock_not_ready _ _ _ _ _ _ hc hr]
  · simp only [Bool.not_eq_true] at hc
    rw [telegramBlock_absent _ _ _ _ _ _ hc, telegramBlock_absent _ _ _ _ _ _ hc]

/-- The WhatsApp block depends on the gateway only through the answer to its
own request. -/
theorem whatsappBlock_congr (env : Env) (axios axios' : Axios) (s m c r : JVal)
    (h : ∀ q, whatsappRequest env s m (r.optChain "whatsapp") = .ok q → axios' q = axios q) :
    whatsappBlock env axios' s m c r Dispatch.empty =
      whatsappBlock env axios s m c r Dispatch.empty := by
  unfold whatsappBlock whatsappTry
  dsimp only
  rcases hq : whatsappRequest env s m (r.optChain "whatsapp") with e | q
  · rfl
  · simp only [h q hq]

/-- The Telegram block depends on the gateway only through the answer to its
own request. -/
theorem telegramBlock_congr (env : Env) (axios axios' : Axios) (s m c r : JVal)
    (h : ∀ q, telegramRequest env s m (r.optChain "telegram") = .ok q → axios' q = axios q) :
    telegramBlock env axios' s m c r Dispatch.empty =
      telegramBlock env axios s m c r Dispatch.empty := by
  unfold telegramBlock telegramTry
  dsimp only
  rcases hq : telegramRequest env s m (r.optChain "telegram") with e | q
  · rfl
  · simp only [h q hq]

theorem aggregate_status_ne_500 (results : List ChannelResult) :
    (aggregate results).status ≠ 500 := by
  unfold aggregate
  dsimp only
  split
  · simp
  · split <;> simp

/-- The response of a request that passes validation, by what `run` throws. -/
theorem response_of_run (env : Env) (tr : Option Transporter) (axios : Axios) (body : JVal)
    (hv : passesValidation body = true) :
    ((sendNotification env tr axios body).1.status = 500 ↔ (run env tr axios body).2 ≠ none) ∧
    (sendNotification env tr axios body).1.results =
      if (run env tr axios body).2 = none then some (run env tr axios body).1.results
      else none := by
  rw [sendNotification_run env tr axios body hv]
  rcases run env tr axios body with ⟨st, _ | e⟩
  · simp [aggregate_status_ne_500, aggregate_results]
  · simp [internalErrorResponse]

theorem append_ne_empty_left (a b : String) (h : a ≠ "") : a ++ b ≠ "" := by
  intro hab
  have hl : (a ++ b).length = 0 := by rw [hab]; rfl
  rw [String.length_append] at hl
  have : a.length = 0 := by omega
  exact h (String.ext (List.length_eq_zero.mp this))

theorem append_ne_empty_right (a b : String) (h : b ≠ "") : a ++ b ≠ "" := by
  intro hab
  have hl : (a ++ b).length = 0 := by rw [hab]; rfl
  rw [String.length_append] at hl
  have : b.length = 0 := by omega
  exact h (String.ext (List.length_eq_zero.mp this))

theorem filter_ne_same {a : String} {l : List ChannelResult}
    (h : ∀ x ∈ l, x.channel = a) : l.filter (fun x => x.channel != a) = [] := by
  rw [List.filter_eq_nil_iff]
  intro x hx
  simp [h x hx]

/-- Two runs of one request whose blocks throw alike and push the same results
outside channel `c` answer alike outside channel `c`. -/
theorem isolation_core (env : Env) (tr tr' : Option Transporter) (axios axios' : Axios)
    (body : JVal) (c : String) (hv : passesValidation body = true)
    (hE2 : (emailBlock env tr (body.optChain "subject") (body.optChain "message")
        (body.optChain "channels") (body.optChain "recipients") Dispatch.empty).2 =
      (emailBlock env tr' (body.optChain "subject") (body.optChain "message")
        (body.optChain "channels") (body.optChain "recipients") Dispatch.empty).2)
    (hW2 : (whatsappBlock env axios (body.optChain "subject") (body.optChain "message")
        (body.optChain "channels") (body.optChain "recipients") Dispatch.empty).2 =
      (whatsappBlock env axios' (body.optChain "subject") (body.optChain "message")
        (body.optChain "channels") (body.optChain "recipients") Dispatch.empty).2)
    (hT2 : (telegramBlock env axios (body.optChain "subject") (body.optChain "message")
        (body.optChain "channels") (body.optChain "recipients") Dispatch.empty).2 =
      (telegramBlock env axios' (body.optChain "subject") (body.optChain "message")
        (body.optChain "channels") (body.optChain "recipients") Dispatch.empty).2)
    (hE : (emailBlock env tr (body.optChain "subject") (body.optChain "message")
        (body.optChain "channels") (body.optChain "recipients")
          Dispatch.empty).1.results.filter (fun x => x.channel != c) =
      (emailBlock env tr' (body.optChain "subject") (body.optChain "message")
        (body.optChain "channels") (body.optChain "recipients")
          Dispatch.empty).1.results.filter (fun x => x.channel != c))
    (hW : (whatsappBlock env axios (body.optChain "subject") (body.optChain "message")
        (body.optChain "channels") (body.optChain "recipients")
          Dispatch.empty).1.results.filter (fun x => x.channel != c) =
      (whatsappBlock env axios' (body.optChain "subject") (body.optChain "message")
        (body.optChain "channels") (body.optChain "recipients")
          Dispatch.empty).1.results.filter (fun x => x.channel != c))
    (hT : (telegramBlock env axios (body.optChain "subject") (body.optChain "message")
        (body.optChain "channels") (body.optChain "recipients")
          Dispatch.empty).1.results.filter (fun x => x.channel != c) =
      (telegramBlock env axios' (body.optChain "subject") (body.optChain "message")
        (body.optChain "channels") (body.optChain "recipients")
          Dispatch.empty).1.results.filter (fun x => x.channel != c)) :
    ((sendNotification env tr axios body).1.status = 500 ↔
      (sendNotification env tr' axios' body).1.status = 500) ∧
    (sendNotification env tr axios body).1.results.map
        (fun rs => rs.filter (fun x => x.channel != c)) =
      (sendNotification env tr' axios' body).1.results.map
        (fun rs => rs.filter (fun x => x.channel != c)) := by
  obtain ⟨hs, hr⟩ := response_of_run env tr axios body hv
  obtain ⟨hs', hr'⟩ := response_of_run env tr' axios' body hv
  have hiff : (run env tr axios body).2 = none ↔ (run env tr' axios' body).2 = none := by
    unfold run
    rw [dispatch_thrown_none, dispatch_thrown_none, hE2, hW2, hT2]
  refine ⟨by rw [hs, hs', Ne, Ne, hiff], ?_⟩
  rw [hr, hr']
  by_cases hd : (run env tr axios body).2 = none
  · have hd' := hiff.mp hd
    rw [if_pos hd, if_pos hd', (run_results env tr axios body hd).2.2.2,
      (run_results env tr' axios' body hd').2.2.2]
    simp only [Option.map_some', List.filter_append, hE, hW, hT]
  · have hd' : ¬ (run env tr' axios' body).2 = none := fun h => hd (hiff.mpr h)
    rw [if_neg hd, if_neg hd']

/-- Isolation on the results of a response: for every request that passes
validation and every listed channel whose precondition holds and whose provider
call throws, the request ends in the 500 branch only if it also would with any
other answer of that provider, a response that holds results holds the `failed`
result of the channel with a non-empty error text, and the results of the other
channels are the same as with any other answer of that provider. -/
theorem isolation_of_results (env : Env) (body : JVal) (hv : passesValidation body = true) :
    (∀ (t t' : Transporter) (axios : Axios) (o : MailOptions) (e : JSError),
      (body.optChain "channels").includes "email" = true →
      emailReady (some t) (body.optChain "recipients") →
      mailOptions env (body.optChain "subject") (body.optChain "message")
        ((body.optChain "recipients").optChain "email") = .ok o →
      t.sendMail o = .error e →
      ((sendNotification env (some t) axios body).1.status = 500 ↔
        (sendNotification env (some t') axios body).1.status = 500) ∧
      (∀ results, (sendNotification env (some t) axios body).1.results = some results →
        ∃ d, d ≠ "" ∧ results.filter (fun x => x.channel == "email") =
          [⟨"email", "failed", none, some d⟩]) ∧
      (sendNotification env (some t) axios body).1.results.map
          (fun rs => rs.filter (fun x => x.channel != "email")) =
        (sendNotification env (some t') axios body).1.results.map
          (fun rs => rs.filter (fun x => x.channel != "email"))) ∧
    (∀ (tr : Option Transporter) (axios axios' : Axios) (q : PostRequest) (e : JSError),
      (body.optChain "channels").includes "whatsapp" = true →
      whatsappReady env (body.optChain "recipients") →
      whatsappRequest env (body.optChain "subject") (body.optChain "message")
        ((body.optChain "recipients").optChain "whatsapp") = .ok q →
      axios q = .error e →
      (∀ q', telegramRequest env (body.optChain "subject") (body.optChain "message")
        ((body.optChain "recipients").optChain "telegram") = .ok q' → axios' q' = axios q') →
      ((sendNotification env tr axios body).1.status = 500 ↔
        (sendNotification env tr axios' body).1.status = 500) ∧
      (∀ results, (sendNotification env tr axios body).1.results = some results →
        ∃ d, d ≠ "" ∧ results.filter (fun x => x.channel == "whatsapp") =
          [⟨"whatsapp", "failed", none, some d⟩]) ∧
      (sendNotification env tr axios body).1.results.map
          (fun rs => rs.filter (fun x => x.channel != "whatsapp")) =
        (sendNotification env tr axios' body).1.results.map
          (fun rs => rs.filter (fun x => x.channel != "whatsapp"))) ∧
    (∀ (tr : Option Transporter) (axios axios' : Axios) (q : PostRequest) (e : JSError),
      (body.optChain "channels").includes "telegram" = true →
      telegramReady env (body.optChain "recipients") →
      telegramRequest env (body.optChain "subject") (body.optChain "message")
        ((body.optChain "recipients").optChain "telegram") = .ok q →
      axios q = .error e →
      (∀ q', whatsappRequest env (body.optChain "subject") (body.optChain "message")
        ((body.optChain "recipients").optChain "whatsapp") = .ok q' → axios' q' = axios q') →
      ((sendNotification env tr axios body).1.status = 500 ↔
        (sendNotification env tr axios' body).1.status = 500) ∧
      (∀ results, (sendNotification env tr axios body).1.results = some results →
        ∃ d, d ≠ "" ∧ results.filter (fun x => x.channel == "telegram") =
          [⟨"telegram", "failed", none, some d⟩]) ∧
      (sendNotification env tr axios body).1.results.map
          (fun rs => rs.filter (fun x => x.channel != "telegram")) =
        (sendNotification env tr axios' body).1.results.map
          (fun rs => rs.filter (fun x => x.channel != "telegram"))) := by
  refine ⟨?_, ?_, ?_⟩
  · intro t t' axios o e hc hr ho hs
    have hE := (emailBlock_summary env (some t) (body.optChain "subject")
      (body.optChain "message") (body.optChain "channels") (body.optChain "recipients")).1
    have hE' := (emailBlock_summary env (some t') (body.optChain "subject")
      (body.optChain "message") (body.optChain "channels") (body.optChain "recipients")).1
    have hW := (whatsappBlock_summary env axios (body.optChain "subject")
      (body.optChain "message") (body.optChain "channels") (body.optChain "recipients")).1
    have hT := (telegramBlock_summary env axios (body.optChain "subject")
      (body.optChain "message") (body.optChain "channels") (body.optChain "recipients")).1
    obtain ⟨h500, hothers⟩ := isolation_core env (some t) (some t') axios axios body "email" hv
      (emailBlock_thrown_indep env t t' _ _ _ _) rfl rfl
      (by rw [filter_ne_same hE, filter_ne_same hE']) rfl rfl
    refine ⟨h500, fun results hres => ?_, hothers⟩
    obtain ⟨hd, hrr⟩ := results_of_response env (some t) axios body results hres
    obtain ⟨_, _, _, hsplit⟩ := run_results env (some t) axios body hd
    rw [← hrr, hsplit, List.filter_append, List.filter_append, filter_channel_same hE,
      filter_channel_other hW (by decide), filter_channel_other hT (by decide)]
    rcases emailBlock_ready env t _ _ _ _ hc hr.2 with
      ⟨e0, _, h0, _, _⟩ | ⟨o1, e1, msg, h1, h2, _, h⟩ | ⟨o1, info, h1, h2, _⟩
    · rw [ho] at h0; cases h0
    · rw [ho] at h1; cases h1
      rw [hs] at h2; cases h2
      rw [h]
      exact ⟨msg ++ " " ++ e.message,
        append_ne_empty_left _ _ (append_ne_empty_right _ _ (by decide)), by simp⟩
    · rw [ho] at h1; cases h1
      rw [hs] at h2; cases h2
  · intro tr axios axios' q e hc hr hq ha hagree
    have hE := (emailBlock_summary env tr (body.optChain "subject")
      (body.optChain "message") (body.optChain "channels") (body.optChain "recipients")).1
    have hW := (whatsappBlock_summary env axios (body.optChain "subject")
      (body.optChain "message") (body.optChain "channels") (body.optChain "recipients")).1
    have hW' := (whatsappBlock_summary env axios' (body.optChain "subject")
      (body.optChain "message") (body.optChain "channels") (body.optChain "recipients")).1
    have hT := (telegramBlock_summary env axios (body.optChain "subject")
      (body.optChain "message") (body.optChain "channels") (body.optChain "recipients")).1
    have hTeq := telegramBlock_congr env axios axios' (body.optChain "subject")
      (body.optChain "message") (body.optChain "channels") (body.optChain "recipients") hagree
    obtain ⟨h500, hothers⟩ := isolation_core env tr tr axios axios' body "whatsapp" hv
      rfl (whatsappBlock_thrown_indep env axios axios' _ _ _ _) (by rw [hTeq])
      rfl (by rw [filter_ne_same hW, filter_ne_same hW']) (by rw [hTeq])
    refine ⟨h500, fun results hres => ?_, hothers⟩
    obtain ⟨hd, hrr⟩ := results_of_response env tr axios body results hres
    obtain ⟨_, _, _, hsplit⟩ := run_results env tr axios body hd
    rw [← hrr, hsplit, List.filter_append, List.filter_append, filter_channel_same hW,
      filter_channel_other hE (by decide), filter_channel_other hT (by decide)]
    rcases whatsappBlock_ready env axios _ _ _ _ hc hr with
      ⟨e0, h0, _⟩ | ⟨q1, e1, h1, h2, h⟩ | ⟨q1, resp, h1, h2, _⟩
    · rw [hq] at h0; cases h0
    · rw [hq] at h1; cases h1
      rw [ha] at h2; cases h2
      rw [h]
      exact ⟨"Twilio Error: " ++ orMessage (responseField e ErrorData.message) e,
        append_ne_empty_left _ _ (by decide), by simp [whatsappFailed]⟩
    · rw [hq] at h1; cases h1
      rw [ha] at h2; cases h2
  · intro tr axios axios' q e hc hr hq ha hagree
    have hE := (emailBlock_summary env tr (body.optChain "subject")
      (body.optChain "message") (body.optChain "channels") (body.optChain "recipients")).1
    have hW := (whatsappBlock_summary env axios (body.optChain "subject")
      (body.optChain "message") (body.optChain "channels") (body.optChain "recipients")).1
    have hT := (telegramBlock_summary env axios (body.optChain "subject")
      (body.optChain "message") (body.optChain "channels") (body.optChain "recipients")).1
    have hT' := (telegramBlock_summary env axios' (body.optChain "subject")
      (body.optChain "message") (body.optChain "channels") (body.optChain "recipients")).1
    have hWeq := whatsappBlock_congr env axios axios' (body.optChain "subject")
      (body.optChain "message") (body.optChain "channels") (body.optChain "recipients") hagree
    obtain ⟨h500, hothers⟩ := isolation_core env tr tr axios axios' body "telegram" hv
      rfl (by rw [hWeq]) (telegramBlock_thrown_indep env axios axios' _ _ _ _)
      rfl (by rw [hWeq]) (by rw [filter_ne_same hT, filter_ne_same hT'])
    refine ⟨h500, fun results hres => ?_, hothers⟩
    obtain ⟨hd, hrr⟩ := results_of_response env tr axios body results hres
    obtain ⟨_, _, _, hsplit⟩ := run_results env tr axios body hd
    rw [← hrr, hsplit, List.filter_append, List.filter_append, filter_channel_same hT,
      filter_channel_other hE (by decide), filter_channel_other hW (by decide)]
    rcases telegramBlock_ready env axios _ _ _ _ hc hr with
      ⟨e0, h0, _⟩ | ⟨q1, e1, h1, h2, h⟩ | ⟨q1, resp, _, h1, h2, _, _⟩ | ⟨q1, resp, _, h1, h2, _, _⟩
    · rw [hq] at h0; cases h0
    · rw [hq] at h1; cases h1
      rw [ha] at h2; cases h2
      rw [h]
      exact ⟨"Telegram Error: " ++ orMessage (responseField e ErrorData.description) e,
        append_ne_empty_left _ _ (by decide), by simp [telegramFailed]⟩
    · rw [hq] at h1; cases h1
      rw [ha] at h2; cases h2
    · rw [hq] at h1; cases h1
      rw [ha] at h2; cases h2

/-- Success detail as the handlers implement it: for every request and every
listed channel whose precondition holds and whose provider call succeeds,
whenever the response holds results the result of the channel is `success`;
the e-mail result carries `info.messageId` and the WhatsApp result the `sid` of
the gateway response as `messageId`, while the Telegram result carries no
identifier, whatever the gateway answered. -/
theorem success_detail (env : Env) (body : JVal) :
    (∀ (t : Transporter) (axios : Axios) (o : MailOptions) (info : MailInfo),
      (body.optChain "channels").includes "email" = true →
      emailReady (some t) (body.optChain "recipients") →
      mailOptions env (body.optChain "subject") (body.optChain "message")
        ((body.optChain "recipients").optChain "email") = .ok o →
      t.sendMail o = .ok info →
      ∀ results, (sendNotification env (some t) axios body).1.results = some results →
        results.filter (fun x => x.channel == "email") =
          [⟨"email", "success", some info.messageId, none⟩]) ∧
    (∀ (tr : Option Transporter) (axios : Axios) (q : PostRequest) (resp : PostResponse),
      (body.optChain "channels").includes "whatsapp" = true →
      whatsappReady env (body.optChain "recipients") →
      whatsappRequest env (body.optChain "subject") (body.optChain "message")
        ((body.optChain "recipients").optChain "whatsapp") = .ok q →
      axios q = .ok resp →
      ∀ results, (sendNotification env tr axios body).1.results = some results →
        results.filter (fun x => x.channel == "whatsapp") =
          [⟨"whatsapp", "success", resp.sid, none⟩]) ∧
    (∀ (tr : Option Transporter) (axios : Axios) (q : PostRequest) (resp : PostResponse),
      (body.optChain "channels").includes "telegram" = true →
      telegramReady env (body.optChain "recipients") →
      telegramRequest env (body.optChain "subject") (body.optChain "message")
        ((body.optChain "recipients").optChain "telegram") = .ok q →
      axios q = .ok resp →
      ∀ results, (sendNotification env tr axios body).1.results = some results →
        results.filter (fun x => x.channel == "telegram") =
          [⟨"telegram", "success", none, none⟩]) := by
  refine ⟨?_, ?_, ?_⟩
  · intro t axios o info hc hr ho hs results hres
    have hE := (emailBlock_summary env (some t) (body.optChain "subject")
      (body.optChain "message") (body.optChain "channels") (body.optChain "recipients")).1
    have hW := (whatsappBlock_summary env axios (body.optChain "subject")
      (body.optChain "message") (body.optChain "channels") (body.optChain "recipients")).1
    have hT := (telegramBlock_summary env axios (body.optChain "subject")
      (body.optChain "message") (body.optChain "channels") (body.optChain "recipients")).1
    obtain ⟨hd, hrr⟩ := results_of_response env (some t) axios body results hres
    obtain ⟨_, _, _, hsplit⟩ := run_results env (some t) axios body hd
    rw [← hrr, hsplit, List.filter_append, List.filter_append, filter_channel_same hE,
      filter_channel_other hW (by decide), filter_channel_other hT (by decide)]
    rcases emailBlock_ready env t _ _ _ _ hc hr.2 with
      ⟨e0, _, h0, _, _⟩ | ⟨o1, e1, msg, h1, h2, _, _⟩ | ⟨o1, info1, h1, h2, h⟩
    · rw [ho] at h0; cases h0
    · rw [ho] at h1; cases h1
      rw [hs] at h2; cases h2
    · rw [ho] at h1; cases h1
      rw [hs] at h2; cases h2
      rw [h]; rfl
  · intro tr axios q resp hc hr hq ha results hres
    have hE := (emailBlock_summary env tr (body.optChain "subject")
      (body.optChain "message") (body.optChain "channels") (body.optChain "recipients")).1
    have hW := (whatsappBlock_summary env axios (body.optChain "subject")
      (body.optChain "message") (body.optChain "channels") (body.optChain "recipients")).1
    have hT := (telegramBlock_summary env axios (body.optChain "subject")
      (body.optChain "message") (body.optChain "channels") (body.optChain "recipients")).1
    obtain ⟨hd, hrr⟩ := results_of_response env tr axios body results hres
    obtain ⟨_, _, _, hsplit⟩ := run_results env tr axios body hd
    rw [← hrr, hsplit, List.filter_append, List.filter_append, filter_channel_same hW,
      filter_channel_other hE (by decide), filter_channel_other hT (by decide)]
    rcases whatsappBlock_ready env axios _ _ _ _ hc hr with
      ⟨e0, h0, _⟩ | ⟨q1, e1, h1, h2, _⟩ | ⟨q1, resp1, h1, h2, h⟩
    · rw [hq] at h0; cases h0
    · rw [hq] at h1; cases h1
      rw [ha] at h2; cases h2
    · rw [hq] at h1; cases h1
      rw [ha] at h2; cases h2
      rw [h]; rfl
  · intro tr axios q resp hc hr hq ha results hres
    have hE := (emailBlock_summary env tr (body.optChain "subject")
      (body.optChain "message") (body.optChain "channels") (body.optChain "recipients")).1
    have hW := (whatsappBlock_summary env axios (body.optChain "subject")
      (body.optChain "message") (body.optChain "channels") (body.optChain "recipients")).1
    have hT := (telegramBlock_summary env axios (body.optChain "subject")
      (body.optChain "message") (body.optChain "channels") (body.optChain "recipients")).1
    obtain ⟨hd, hrr⟩ := results_of_response env tr axios body results hres
    obtain ⟨_, _, ht, hsplit⟩ := run_results env tr axios body hd
    rw [← hrr, hsplit, List.filter_append, List.filter_append, filter_channel_same hT,
      filter_channel_other hE (by decide), filter_channel_other hW (by decide)]
    rcases telegramBlock_ready env axios _ _ _ _ hc hr with
      ⟨e0, h0, _⟩ | ⟨q1, e1, h1, h2, _⟩ | ⟨q1, resp1, _, h1, h2, _, h⟩ |
      ⟨q1, resp1, _, h1, h2, _, h⟩
    · rw [hq] at h0; cases h0
    · rw [hq] at h1; cases h1
      rw [ha] at h2; cases h2
    · rw [h]; rfl
    · rw [h] at ht; cases ht

theorem finalMessage_begins (results : List ChannelResult) :
    ∃ rest, finalMessage results = "Notifikasi berhasil diproses." ++ rest := by
  unfold finalMessage
  dsimp only
  split <;> split <;> split
  all_goals first
    | exact ⟨"", (String.append_empty _).symm⟩
    | exact ⟨_, rfl⟩

theorem finalMessage_ne (results : List ChannelResult) :
    finalMessage results ≠ "" ∧ finalMessage results ≠ nothingSentNote := by
  obtain ⟨rest, h⟩ := finalMessage_begins results
  rw [h]
  constructor
  · exact append_ne_empty_left _ _ (by decide)
  · intro heq
    have hd := congrArg String.data heq
    rw [String.data_append] at hd
    have h1 : "Notifikasi berhasil diproses.".data = 'N' :: "otifikasi berhasil diproses.".data := by
      decide
    have h2 : nothingSentNote.data =
        'T' :: ("idak ada notifikasi yang dikirim. Periksa channel yang diminta atau " ++
          "konfigurasi.").data := by decide
    rw [h1, h2] at hd
    simp at hd

/-- C8, behaviour of the code. The summary text is never empty, so the fallback
to the nothing-sent note is never taken: the message of an aggregated response
is always the summary and never the note; for `channels = ['sms']` it is the
bare text "Notifikasi berhasil diproses." -/
theorem nothing_sent_note_unreachable :
    (∀ results, (aggregate results).message = finalMessage results ∧
      (aggregate results).message ≠ nothingSentNote) ∧
    (sendNotification emptyEnv none acceptingAxios smsBody).1 =
      ⟨200, true, "Notifikasi berhasil diproses.", some [], none⟩ := by
  refine ⟨fun results => ?_, by decide⟩
  obtain ⟨h1, h2⟩ := finalMessage_ne results
  have hm : (aggregate results).message = finalMessage results := by
    unfold aggregate
    dsimp only
    split
    · rfl
    · split
      · rfl
      · simp [h1]
  exact ⟨hm, by rw [hm]; exact h2⟩

/-- C10, behaviour of the code. With `EMAIL_USER` set and `EMAIL_PASS` unset the
status endpoint reports e-mail as `configured`, although no transporter is
created at start-up and an e-mail to a well-formed address is skipped.  The
WhatsApp and Telegram entries do agree with the conditions of their handlers. -/
theorem status_email_ignores_password :
    (notificationStatus userOnlyEnv).email = "configured" ∧
    (∀ createTransport, initEmailTransporter userOnlyEnv createTransport = none) ∧
    (∀ createTransport axios,
      (sendNotification userOnlyEnv (initEmailTransporter userOnlyEnv createTransport) axios
        emailBody).1.results =
        some [⟨"email", "skipped", none,
          some "Email transporter tidak dikonfigurasi atau penerima tidak valid."⟩]) ∧
    (∀ env : Env, ((notificationStatus env).whatsapp = "configured" ↔
        env.isSet "TWILIO_ACCOUNT_SID" = true ∧ env.isSet "TWILIO_AUTH_TOKEN" = true ∧
          env.isSet "TWILIO_WHATSAPP_FROM" = true) ∧
      ((notificationStatus env).telegram = "configured" ↔
        env.isSet "TELEGRAM_BOT_TOKEN" = true ∧
          env "TELEGRAM_BOT_TOKEN" ≠ some "your_telegram_bot_token")) := by
  have hinit : ∀ createTransport, initEmailTransporter userOnlyEnv createTransport = none := by
    intro createTransport
    unfold initEmailTransporter
    have h : userOnlyEnv.isSet "EMAIL_PASS" = false := by decide
    simp [h]
  refine ⟨by decide, hinit, ?_, ?_⟩
  · intro createTransport axios
    rw [hinit]
    rfl
  · intro env
    unfold notificationStatus
    dsimp only
    constructor
    · split
      · rename_i h
        simp only [Bool.and_eq_true] at h
        simp [h.1.1, h.1.2, h.2]
      · rename_i h
        simp only [Bool.and_eq_true] at h
        constructor
        · intro hc; exact absurd hc (by decide)
        · intro hc; exact absurd ⟨⟨hc.1, hc.2.1⟩, hc.2.2⟩ h
    · split
      · rename_i h
        simp only [Bool.and_eq_true, bne_iff_ne] at h
        simp [h.1, h.2]
      · rename_i h
        simp only [Bool.and_eq_true, bne_iff_ne] at h
        constructor
        · intro hc; exact absurd hc (by decide)
        · intro hc; exact absurd hc h

theorem matchAnchored_nil (cs : List Char) : matchAnchored [] cs = true ↔ cs = [] := by
  cases cs <;> simp [matchAnchored]

theorem matchAnchored_once (p : Char → Bool) (ts : List Term) (cs : List Char) :
    matchAnchored (⟨p, .once⟩ :: ts) cs = true ↔
      ∃ c rest, cs = c :: rest ∧ p c = true ∧ matchAnchored ts rest = true := by
  cases cs with
  | nil => simp [matchAnchored]
  | cons c rest =>
    simp only [matchAnchored, Bool.and_eq_true, List.cons.injEq]
    constructor
    · rintro ⟨h1, h2⟩
      exact ⟨c, rest, ⟨rfl, rfl⟩, h1, h2⟩
    · rintro ⟨c1, rest1, ⟨rfl, rfl⟩, h1, h2⟩
      exact ⟨h1, h2⟩

theorem matchAnchored_plus (p : Char → Bool) (ts : List Term) (cs : List Char) :
    matchAnchored (⟨p, .oneOrMore⟩ :: ts) cs = true ↔
      ∃ u v, u ≠ [] ∧ (∀ c ∈ u, p c = true) ∧ cs = u ++ v ∧ matchAnchored ts v = true := by
  induction cs with
  | nil =>
    simp only [matchAnchored, Bool.false_eq_true, false_iff]
    rintro ⟨u, v, hu, _, huv, _⟩
    cases u with
    | nil => exact hu rfl
    | cons a u => cases huv
  | cons c rest ih =>
    simp only [matchAnchored, Bool.and_eq_true, Bool.or_eq_true]
    constructor
    · rintro ⟨hc, h | h⟩
      · exact ⟨[c], rest, by simp, by simpa using hc, rfl, h⟩
      · obtain ⟨u, v, _, hp, huv, hm⟩ := ih.mp h
        refine ⟨c :: u, v, by simp, ?_, by simp [huv], hm⟩
        intro x hx
        rcases List.mem_cons.mp hx with rfl | hx
        · exact hc
        · exact hp x hx
    · rintro ⟨u, v, hu, hp, huv, hm⟩
      cases u with
      | nil => exact absurd rfl hu
      | cons a u =>
        simp only [List.cons_append, List.cons.injEq] at huv
        obtain ⟨rfl, hrest⟩ := huv
        refine ⟨hp c (by simp), ?_⟩
        cases u with
        | nil => left; simpa [hrest] using hm
        | cons b u =>
          right
          exact ih.mpr ⟨b :: u, v, by simp, fun x hx => hp x (List.mem_cons_of_mem _ hx),
            hrest, hm⟩

/-- The e-mail pattern on a list of characters. -/
theorem emailRegex_match (cs : List Char) :
    matchAnchored emailRegex cs = true ↔
      ∃ l d t : List Char, l ≠ [] ∧ d ≠ [] ∧ t ≠ [] ∧
        (∀ c ∈ l, notSpaceAt c = true) ∧ (∀ c ∈ d, notSpaceAt c = true) ∧
        (∀ c ∈ t, notSpaceAt c = true) ∧ cs = l ++ '@' :: (d ++ '.' :: t) := by
  unfold emailRegex
  simp only [matchAnchored_plus, matchAnchored_once, matchAnchored_nil]
  constructor
  · rintro ⟨l, v1, hl, hpl, rfl, c1, v2, rfl, hc1, d, v3, hd, hpd, rfl, c2, v4, rfl, hc2,
      t, v5, ht, hpt, rfl, rfl⟩
    simp only [beq_iff_eq] at hc1 hc2
    subst hc1 hc2
    exact ⟨l, d, t, hl, hd, ht, hpl, hpd, hpt, by simp⟩
  · rintro ⟨l, d, t, hl, hd, ht, hpl, hpd, hpt, rfl⟩
    exact ⟨l, _, hl, hpl, rfl, '@', _, rfl, by simp, d, _, hd, hpd, rfl, '.', _, rfl, by simp,
      t, [], ht, hpt, by simp, rfl⟩

theorem isValidEmail_str (s : String) :
    isValidEmail (.str s) = .ok (matchAnchored emailRegex s.toList) := by
  unfold isValidEmail
  by_cases hs : s = ""
  · subst hs
    decide
  · have ht : (JVal.str s).truthy = true := by simp [JVal.truthy, hs]
    simp [ht, JVal.toJSString, JVal.toStr]

theorem notSpaceAt_iff (c : Char) :
    notSpaceAt c = true ↔ isWhiteSpace c = false ∧ c ≠ '@' := by
  unfold notSpaceAt
  cases isWhiteSpace c <;> simp

theorem plainPart_mk (l : List Char) (hl : l ≠ []) (hp : ∀ c ∈ l, notSpaceAt c = true) :
    plainPart (String.mk l) := by
  refine ⟨fun h => hl (congrArg String.data h), fun c hc => (notSpaceAt_iff c).mp (hp c hc)⟩

theorem plainPart_data {x : String} (h : plainPart x) :
    x.data ≠ [] ∧ ∀ c ∈ x.data, notSpaceAt c = true :=
  ⟨fun hd => h.1 (String.ext hd), fun c hc => (notSpaceAt_iff c).mpr (h.2 c hc)⟩

/-- The e-mail pattern on a string, in terms of its three parts. -/
theorem isValidEmail_iff (s : String) :
    isValidEmail (.str s) = .ok true ↔
      ∃ l d t : String, s = l ++ "@" ++ d ++ "." ++ t ∧
        plainPart l ∧ plainPart d ∧ plainPart t := by
  rw [isValidEmail_str, Except.ok.injEq, emailRegex_match]
  constructor
  · rintro ⟨l, d, t, hl, hd, ht, hpl, hpd, hpt, hs⟩
    refine ⟨String.mk l, String.mk d, String.mk t, ?_, plainPart_mk l hl hpl,
      plainPart_mk d hd hpd, plainPart_mk t ht hpt⟩
    apply String.ext
    simp only [String.data_append]
    rw [show s.data = s.toList from rfl, hs]
    simp
  · rintro ⟨l, d, t, hs, hl, hd, ht⟩
    obtain ⟨hl1, hl2⟩ := plainPart_data hl
    obtain ⟨hd1, hd2⟩ := plainPart_data hd
    obtain ⟨ht1, ht2⟩ := plainPart_data ht
    refine ⟨l.data, d.data, t.data, hl1, hd1, ht1, hl2, hd2, ht2, ?_⟩
    rw [hs]
    simp [String.toList, String.data_append]

theorem plain_not_mem_at {l : List Char} (h : ∀ c ∈ l, notSpaceAt c = true) : '@' ∉ l := by
  intro hm
  have := (notSpaceAt_iff '@').mp (h '@' hm)
  exact this.2 rfl

theorem split_at_first {l l' r r' : List Char} (hl : '@' ∉ l) (hl' : '@' ∉ l')
    (h : l ++ '@' :: r = l' ++ '@' :: r') : l = l' ∧ r = r' := by
  induction l generalizing l' with
  | nil =>
    cases l' with
    | nil => simpa using h
    | cons a l' =>
      simp only [List.nil_append, List.cons_append, List.cons.injEq] at h
      exact absurd (by simp [← h.1]) hl'
  | cons a l ih =>
    cases l' with
    | nil =>
      simp only [List.nil_append, List.cons_append, List.cons.injEq] at h
      exact absurd (by simp [h.1]) hl
    | cons b l' =>
      simp only [List.cons_append, List.cons.injEq] at h
      obtain ⟨hab, hrest⟩ := h
      have := ih (fun hm => hl (List.mem_cons_of_mem _ hm))
        (fun hm => hl' (List.mem_cons_of_mem _ hm)) hrest
      exact ⟨by rw [hab, this.1], this.2⟩

/-- C9. E-mail syntax check: for every string `s`, `isValidEmail(s)` returns,
and returns `true` if and only if `s` is `l ++ "@" ++ d ++ "." ++ t` with `l`,
`d`, `t` non-empty and free of white space and of `@`.  Consequently it is
false for a missing or empty recipient, for a string containing white space,
for a string with no or more than one `@`, and for a string whose part after
the `@` has no `.` strictly inside it; `isValidEmail('bad-address')` is false. -/
theorem email_syntax_check (s : String) :
    (∃ b, isValidEmail (.str s) = .ok b) ∧
    (isValidEmail (.str s) = .ok true ↔
      ∃ l d t : String, s = l ++ "@" ++ d ++ "." ++ t ∧
        plainPart l ∧ plainPart d ∧ plainPart t) ∧
    isValidEmail .undefined = .ok false ∧
    isValidEmail (.str "") = .ok false ∧
    ((∃ c ∈ s.toList, isWhiteSpace c = true) → isValidEmail (.str s) = .ok false) ∧
    (s.toList.count '@' ≠ 1 → isValidEmail (.str s) = .ok false) ∧
    (∀ l rest : String, s = l ++ "@" ++ rest → '@' ∉ l.toList →
      (¬ ∃ d t : String, d ≠ "" ∧ t ≠ "" ∧ rest = d ++ "." ++ t) →
      isValidEmail (.str s) = .ok false) ∧
    isValidEmail (.str "bad-address") = .ok false := by
  have hfalse : isValidEmail (.str s) ≠ .ok true → isValidEmail (.str s) = .ok false := by
    rw [isValidEmail_str]
    cases matchAnchored emailRegex s.toList <;> simp
  refine ⟨⟨_, isValidEmail_str s⟩, isValidEmail_iff s, by decide, by decide, ?_, ?_, ?_,
    by decide⟩
  · rintro ⟨c, hc, hw⟩
    apply hfalse
    rw [Ne, isValidEmail_iff]
    rintro ⟨l, d, t, hs, hl, hd, ht⟩
    rw [hs] at hc
    simp only [String.toList, String.data_append, List.mem_append] at hc
    have hat : isWhiteSpace '@' = false := by decide
    have hdot : isWhiteSpace '.' = false := by decide
    rcases hc with (((hc | hc) | hc) | hc) | hc
    · rw [(hl.2 c hc).1] at hw; cases hw
    · have : c = '@' := by simpa using hc
      rw [this, hat] at hw; cases hw
    · rw [(hd.2 c hc).1] at hw; cases hw
    · have : c = '.' := by simpa using hc
      rw [this, hdot] at hw; cases hw
    · rw [(ht.2 c hc).1] at hw; cases hw
  · intro hcount
    apply hfalse
    rw [Ne, isValidEmail_iff]
    rintro ⟨l, d, t, hs, hl, hd, ht⟩
    apply hcount
    rw [hs]
    simp only [String.toList, String.data_append, List.count_append]
    have h1 : l.data.count '@' = 0 :=
      List.count_eq_zero.mpr (plain_not_mem_at (plainPart_data hl).2)
    have h2 : d.data.count '@' = 0 :=
      List.count_eq_zero.mpr (plain_not_mem_at (plainPart_data hd).2)
    have h3 : t.data.count '@' = 0 :=
      List.count_eq_zero.mpr (plain_not_mem_at (plainPart_data ht).2)
    rw [h1, h2, h3]
    decide
  · intro l rest hs hl hno
    apply hfalse
    rw [Ne, isValidEmail_iff]
    rintro ⟨l', d, t, hs', hl', hd, ht⟩
    apply hno
    refine ⟨d, t, hd.1, ht.1, ?_⟩
    have heq : l.data ++ '@' :: rest.data = l'.data ++ '@' :: (d.data ++ '.' :: t.data) := by
      have := congrArg String.data (hs.symm.trans hs')
      simpa [String.data_append] using this
    have := (split_at_first hl (plain_not_mem_at (plainPart_data hl').2) heq).2
    apply String.ext
    simpa [String.data_append] using this

theorem demoWhatsappRequest_eq :
    whatsappRequest fullEnv (.str "Test") (.str "Hi") (.str "+628123") =
      .ok demoWhatsappRequest := rfl

/-- Witness of C1: with the WhatsApp gateway down and Telegram delivering, the
results hold a success, and the response is 200 with `success = true`. -/
theorem aggregation_law_witness :
    passesValidation whatsappTelegramBody = true ∧
    (run fullEnv none whatsappDownAxios whatsappTelegramBody).2 = none ∧
    (sendNotification fullEnv none whatsappDownAxios whatsappTelegramBody).1.status = 200 ∧
    (sendNotification fullEnv none whatsappDownAxios whatsappTelegramBody).1.success = true :=
  ⟨by decide, by decide,
    (aggregation_law fullEnv none whatsappDownAxios whatsappTelegramBody (by decide)
      (by decide)).2.1 (by decide)⟩

/-- Witness of C2: a body without `subject` is answered 400 before any channel
is attempted. -/
theorem validation_missing_fields_witness :
    noSubjectBody.isNullish = false ∧
    noSubjectBody.optChain "subject" = .undefined ∧
    (sendNotification fullEnv (some deliveringTransporter) acceptingAxios noSubjectBody).1.status
      = 400 ∧
    (sendNotification fullEnv (some deliveringTransporter) acceptingAxios noSubjectBody).1.success
      = false ∧
    (sendNotification fullEnv (some deliveringTransporter) acceptingAxios noSubjectBody).1.results
      = none ∧
    (sendNotification fullEnv (some deliveringTransporter) acceptingAxios noSubjectBody).2 = [] :=
  ⟨rfl, rfl,
    validation_missing_fields fullEnv (some deliveringTransporter) acceptingAxios noSubjectBody
      rfl (Or.inl rfl)⟩

/-- Counterexample to C3: `channels = ['sms']` with non-empty subject and message
is not rejected; the response is 200 with `success = true` and no results. -/
theorem unknown_channel_accepted :
    (smsBody.optChain "channels").includes "sms" = true ∧
    (sendNotification fullEnv (some deliveringTransporter) acceptingAxios smsBody).1.status
      = 200 ∧
    (sendNotification fullEnv (some deliveringTransporter) acceptingAxios smsBody).1.success
      = true ∧
    (sendNotification fullEnv (some deliveringTransporter) acceptingAxios smsBody).1.results
      = some [] := by
  decide

/-- Witness of C3, amended: the body with `channels = ['sms']` passes validation
and is answered 200 with empty results and no provider call. -/
theorem validation_ignores_identifiers_witness :
    passesValidation smsBody = true ∧
    sendNotification fullEnv (some deliveringTransporter) acceptingAxios smsBody =
      (⟨200, true, "Notifikasi berhasil diproses.", some [], none⟩, []) :=
  ⟨(validation_ignores_identifiers fullEnv (some deliveringTransporter) acceptingAxios smsBody
      [.str "sms"] rfl rfl rfl rfl (by simp)).1,
   (validation_ignores_identifiers fullEnv (some deliveringTransporter) acceptingAxios smsBody
      [.str "sms"] rfl rfl rfl rfl (by simp)).2 ⟨rfl, rfl, rfl⟩⟩

/-- Counterexample to C4: for `channels = ['telegram', 'email']` the results come
in the order email, telegram. -/
theorem results_not_in_request_order :
    telegramEmailBody.optChain "channels" = .arr [.str "telegram", .str "email"] ∧
    (sendNotification emptyEnv none acceptingAxios telegramEmailBody).1.results.map
      (fun rs => rs.map (fun r => r.channel)) = some ["email", "telegram"] ∧
    (sendNotification emptyEnv none acceptingAxios telegramEmailBody).1.results.map
      (fun rs => rs.map (fun r => r.channel)) ≠ some ["telegram", "email"] :=
  ⟨rfl, by decide, by decide⟩

/-- Witness of C4, amended, on the body listing telegram before email. -/
theorem results_in_program_order_witness :
    passesValidation telegramEmailBody = true ∧
    (run emptyEnv none acceptingAxios telegramEmailBody).2 = none ∧
    ∃ results,
      (sendNotification emptyEnv none acceptingAxios telegramEmailBody).1.results = some results ∧
      results.map (fun r => r.channel) =
        ["email", "whatsapp", "telegram"].filter
          (fun c => (telegramEmailBody.optChain "channels").includes c) :=
  ⟨by decide, by decide,
    results_in_program_order emptyEnv none acceptingAxios telegramEmailBody (by decide)
      (by decide)⟩

/-- C7, behaviour of the code. Telegram is configured, the chat identifier is
present and the gateway accepts the message and returns the message identifier
42, yet the Telegram result is `success` without any identifier: the handler
discards the gateway response, unlike the e-mail and WhatsApp handlers. -/
theorem telegram_success_without_identifier :
    telegramReady fullEnv (telegramBody.optChain "recipients") ∧
    telegramRequest fullEnv (telegramBody.optChain "subject") (telegramBody.optChain "message")
      ((telegramBody.optChain "recipients").optChain "telegram") = .ok demoTelegramRequest ∧
    acceptingAxios demoTelegramRequest = .ok ⟨none, some 42⟩ ∧
    (sendNotification fullEnv none acceptingAxios telegramBody).1.results =
      some [⟨"telegram", "success", none, none⟩] ∧
    (sendNotification fullEnv none acceptingAxios telegramBody).2.length = 1 :=
  ⟨by unfold telegramReady; decide, rfl, rfl, by decide, by decide⟩

/-- An instance of the success detail: the WhatsApp result carries the `sid`
returned by the gateway. -/
theorem success_detail_witness :
    acceptingAxios demoWhatsappRequest = .ok ⟨some "SM0001", none⟩ ∧
    [(⟨"whatsapp", "success", some "SM0001", none⟩ : ChannelResult),
      ⟨"telegram", "success", none, none⟩].filter (fun x => x.channel == "whatsapp") =
      [⟨"whatsapp", "success", some "SM0001", none⟩] :=
  ⟨rfl,
    (success_detail fullEnv whatsappTelegramBody).2.1 none acceptingAxios demoWhatsappRequest
      ⟨some "SM0001", none⟩ (by decide) (by unfold whatsappReady; decide) rfl rfl _
      (by decide)⟩

theorem toJSString_ok_iff (v : JVal) : (∃ text, v.toJSString = .ok text) ↔ v.toStr ≠ none := by
  unfold JVal.toJSString
  cases v.toStr <;> simp

theorem logWith_none_iff (v : JVal) : (logWith v Dispatch.empty).2 = none ↔ v.toStr ≠ none := by
  unfold logWith JVal.toJSString
  cases v.toStr <;> simp

theorem isValidEmail_error_iff (v : JVal) :
    (∃ e, isValidEmail v = .error e) ↔ v.truthy = true ∧ v.toStr = none := by
  unfold isValidEmail JVal.toJSString
  cases v.truthy <;> cases v.toStr <;> simp

/-- The e-mail block throws nothing exactly when `emailThrows` fails. -/
theorem emailBlock_thrown_iff (env : Env) (tr : Option Transporter) (s m c r : JVal) :
    (emailBlock env tr s m c r Dispatch.empty).2 = none ↔ ¬ emailThrows tr c r := by
  unfold emailThrows
  by_cases hc : c.includes "email" = true
  · cases tr with
    | none => simp [emailBlock, hc]
    | some t =>
      rcases hv : isValidEmail (r.optChain "email") with e | b
      · have := (isValidEmail_error_iff _).mp ⟨e, hv⟩
        simp [emailBlock, hc, hv, this.1, this.2]
      · have hno : ¬ ((r.optChain "email").truthy = true ∧ (r.optChain "email").toStr = none) := by
          intro h
          obtain ⟨e, he⟩ := (isValidEmail_error_iff _).mpr h
          rw [hv] at he; cases he
        have hnone : (emailBlock env (some t) s m c r Dispatch.empty).2 = none := by
          cases b
          · simp [emailBlock, hc, hv]
          · rcases emailBlock_ready env t s m c r hc hv with
              ⟨_, _, _, _, h⟩ | ⟨_, _, _, _, _, _, h⟩ | ⟨_, _, _, _, h⟩ <;> rw [h]
        simp only [hnone, true_iff]
        exact fun h => hno h.2.2
  · simp only [Bool.not_eq_true] at hc
    rw [emailBlock_absent _ _ _ _ _ _ hc]
    simp [hc]

/-- The WhatsApp block throws nothing exactly when `whatsappThrows` fails. -/
theorem whatsappBlock_thrown_iff (env : Env) (axios : Axios) (s m c r : JVal) :
    (whatsappBlock env axios s m c r Dispatch.empty).2 = none ↔ ¬ whatsappThrows env c r := by
  unfold whatsappThrows
  by_cases hc : c.includes "whatsapp" = true
  · by_cases hr : whatsappReady env r
    · rcases whatsappBlock_ready env axios s m c r hc hr with
        ⟨e, _, h⟩ | ⟨q, e, hq, _, h⟩ | ⟨q, resp, hq, _, h⟩
      · rw [h]
        simp only [logWith_none_iff]
        exact ⟨fun h1 h2 => h1 h2.2.2, fun h1 h2 => h1 ⟨hc, hr, h2⟩⟩
      · have := (toJSString_ok_iff _).mp (toJSString_of_whatsappRequest hq)
        rw [h]
        simp only [true_iff]
        exact fun h2 => this h2.2.2
      · have := (toJSString_ok_iff _).mp (toJSString_of_whatsappRequest hq)
        rw [h]
        simp only [true_iff]
        exact fun h2 => this h2.2.2
    · rw [whatsappBlock_not_ready _ _ _ _ _ _ hc hr]
      simp [hr]
  · simp only [Bool.not_eq_true] at hc
    rw [whatsappBlock_absent _ _ _ _ _ _ hc]
    simp [hc]

/-- The Telegram block throws nothing exactly when `telegramThrows` fails. -/
theorem telegramBlock_thrown_iff (env : Env) (axios : Axios) (s m c r : JVal) :
    (telegramBlock env axios s m c r Dispatch.empty).2 = none ↔ ¬ telegramThrows env c r := by
  unfold telegramThrows
  by_cases hc : c.includes "telegram" = true
  · by_cases hr : telegramReady env r
    · rw [telegramBlock_thrown_ready _ _ _ _ _ _ hc hr, logWith_none_iff]
      exact ⟨fun h1 h2 => h1 h2.2.2, fun h1 h2 => h1 ⟨hc, hr, h2⟩⟩
    · rw [telegramBlock_not_ready _ _ _ _ _ _ hc hr]
      simp [hr]
  · simp only [Bool.not_eq_true] at hc
    rw [telegramBlock_absent _ _ _ _ _ _ hc]
    simp [hc]

/-- The channel handlers of a request complete exactly when no recipient
conversion throws. -/
theorem run_completes_iff (env : Env) (tr : Option Transporter) (axios : Axios) (body : JVal) :
    (run env tr axios body).2 = none ↔ ¬ conversionThrows env tr body := by
  unfold run conversionThrows
  rw [dispatch_thrown_none, emailBlock_thrown_iff, whatsappBlock_thrown_iff,
    telegramBlock_thrown_iff]
  tauto

/-- Recipients that are strings or absent never make a handler throw. -/
theorem plain_recipients_convert (env : Env) (tr : Option Transporter) (body : JVal)
    (h : ∀ key, ((body.optChain "recipients").optChain key).isNullish = true ∨
      ∃ text, (body.optChain "recipients").optChain key = .str text) :
    ¬ conversionThrows env tr body := by
  have hconv : ∀ key, ((body.optChain "recipients").optChain key).toStr ≠ none := by
    intro key
    rcases h key with hn | ⟨text, ht⟩
    · cases hx : (body.optChain "recipients").optChain key <;>
        simp [hx, JVal.isNullish, JVal.toStr] at hn ⊢
    · simp [ht, JVal.toStr]
  rintro (h1 | h1 | h1)
  · exact hconv _ h1.2.2.2
  · exact hconv _ h1.2.2
  · exact hconv _ h1.2.2

/-- C5, amended. Per-channel gating: a request that passes validation is answered
500, without results, exactly when some listed channel whose other requirements
are met has a recipient whose conversion to a string throws; otherwise the
response holds results with exactly one result for every listed channel among
email, whatsapp and telegram, and that result is `skipped` exactly when the
precondition of the channel fails.  Whenever the precondition of a listed
channel fails, its provider is not called.  An absent recipient makes the
precondition fail, and recipients that are strings or absent never lead to the
500 answer. -/
theorem channel_gating (env : Env) (emailTransporter : Option Transporter) (axios : Axios)
    (body : JVal) (hv : passesValidation body = true) :
    ((sendNotification env emailTransporter axios body).1.status = 500 ↔
      conversionThrows env emailTransporter body) ∧
    (¬ conversionThrows env emailTransporter body →
      ∃ results, (sendNotification env emailTransporter axios body).1.results = some results ∧
        ((body.optChain "channels").includes "email" = true →
          ∃ r, results.filter (fun x => x.channel == "email") = [r] ∧
            (r.status = "skipped" ↔
              ¬ emailReady emailTransporter (body.optChain "recipients"))) ∧
        ((body.optChain "channels").includes "whatsapp" = true →
          ∃ r, results.filter (fun x => x.channel == "whatsapp") = [r] ∧
            (r.status = "skipped" ↔ ¬ whatsappReady env (body.optChain "recipients"))) ∧
        ((body.optChain "channels").includes "telegram" = true →
          ∃ r, results.filter (fun x => x.channel == "telegram") = [r] ∧
            (r.status = "skipped" ↔ ¬ telegramReady env (body.optChain "recipients")))) ∧
    ((body.optChain "channels").includes "email" = true →
      ¬ emailReady emailTransporter (body.optChain "recipients") →
      ∀ call ∈ (sendNotification env emailTransporter axios body).2, call.isMail = false) ∧
    ((body.optChain "channels").includes "whatsapp" = true →
      ¬ whatsappReady env (body.optChain "recipients") →
      ∀ call ∈ (sendNotification env emailTransporter axios body).2,
        call.isPostTo twilioBase = false) ∧
    ((body.optChain "channels").includes "telegram" = true →
      ¬ telegramReady env (body.optChain "recipients") →
      ∀ call ∈ (sendNotification env emailTransporter axios body).2,
        call.isPostTo telegramBase = false) ∧
    (((body.optChain "recipients").optChain "email").isNullish = true →
      ¬ emailReady emailTransporter (body.optChain "recipients")) ∧
    (((body.optChain "recipients").optChain "whatsapp").isNullish = true →
      ¬ whatsappReady env (body.optChain "recipients")) ∧
    (((body.optChain "recipients").optChain "telegram").isNullish = true →
      ¬ telegramReady env (body.optChain "recipients")) ∧
    ((∀ key, ((body.optChain "recipients").optChain key).isNullish = true ∨
        ∃ text, (body.optChain "recipients").optChain key = .str text) →
      ¬ conversionThrows env emailTransporter body) := by
  obtain ⟨ge, gw, gt, ne, nw, nt⟩ := gating_of_results env emailTransporter axios body hv
  obtain ⟨h500, hres⟩ := response_of_run env emailTransporter axios body hv
  have hrun := run_completes_iff env emailTransporter axios body
  refine ⟨?_, fun hno => ?_, fun hc => (ge hc).1, fun hc => (gw hc).1, fun hc => (gt hc).1,
    ne, nw, nt, plain_recipients_convert env emailTransporter body⟩
  · rw [h500, Ne, hrun, not_not]
  · have hd := hrun.mpr hno
    rw [if_pos hd] at hres
    exact ⟨_, hres, fun hc => (ge hc).2 _ hres, fun hc => (gw hc).2 _ hres,
      fun hc => (gt hc).2 _ hres⟩

/-- C6, amended. Failure isolation: for every request that passes validation and
every listed channel whose precondition holds and whose provider call throws,
the request ends in the 500 branch exactly when it also does with any other
answer of that provider, and the results of the other channels are the same as
with any other answer of that provider; and unless some recipient conversion
throws, the response is not 500 and holds the result of the channel, `failed`
with a non-empty error text. -/
theorem failure_isolation (env : Env) (body : JVal) (hv : passesValidation body = true) :
    (∀ (t t' : Transporter) (axios : Axios) (o : MailOptions) (e : JSError),
      (body.optChain "channels").includes "email" = true →
      emailReady (some t) (body.optChain "recipients") →
      mailOptions env (body.optChain "subject") (body.optChain "message")
        ((body.optChain "recipients").optChain "email") = .ok o →
      t.sendMail o = .error e →
      ((sendNotification env (some t) axios body).1.status = 500 ↔
        (sendNotification env (some t') axios body).1.status = 500) ∧
      (sendNotification env (some t) axios body).1.results.map
          (fun rs => rs.filter (fun x => x.channel != "email")) =
        (sendNotification env (some t') axios body).1.results.map
          (fun rs => rs.filter (fun x => x.channel != "email")) ∧
      (¬ conversionThrows env (some t) body →
        (sendNotification env (some t) axios body).1.status ≠ 500 ∧
        ∃ results d, (sendNotification env (some t) axios body).1.results = some results ∧
          d ≠ "" ∧ results.filter (fun x => x.channel == "email") =
            [⟨"email", "failed", none, some d⟩])) ∧
    (∀ (tr : Option Transporter) (axios axios' : Axios) (q : PostRequest) (e : JSError),
      (body.optChain "channels").includes "whatsapp" = true →
      whatsappReady env (body.optChain "recipients") →
      whatsappRequest env (body.optChain "subject") (body.optChain "message")
        ((body.optChain "recipients").optChain "whatsapp") = .ok q →
      axios q = .error e →
      (∀ q', telegramRequest env (body.optChain "subject") (body.optChain "message")
        ((body.optChain "recipients").optChain "telegram") = .ok q' → axios' q' = axios q') →
      ((sendNotification env tr axios body).1.status = 500 ↔
        (sendNotification env tr axios' body).1.status = 500) ∧
      (sendNotification env tr axios body).1.results.map
          (fun rs => rs.filter (fun x => x.channel != "whatsapp")) =
        (sendNotification env tr axios' body).1.results.map
          (fun rs => rs.filter (fun x => x.channel != "whatsapp")) ∧
      (¬ conversionThrows env tr body →
        (sendNotification env tr axios body).1.status ≠ 500 ∧
        ∃ results d, (sendNotification env tr axios body).1.results = some results ∧
          d ≠ "" ∧ results.filter (fun x => x.channel == "whatsapp") =
            [⟨"whatsapp", "failed", none, some d⟩])) ∧
    (∀ (tr : Option Transporter) (axios axios' : Axios) (q : PostRequest) (e : JSError),
      (body.optChain "channels").includes "telegram" = true →
      telegramReady env (body.optChain "recipients") →
      telegramRequest env (body.optChain "subject") (body.optChain "message")
        ((body.optChain "recipients").optChain "telegram") = .ok q →
      axios q = .error e →
      (∀ q', whatsappRequest env (body.optChain "subject") (body.optChain "message")
        ((body.optChain "recipients").optChain "whatsapp") = .ok q' → axios' q' = axios q') →
      ((sendNotification env tr axios body).1.status = 500 ↔
        (sendNotification env tr axios' body).1.status = 500) ∧
      (sendNotification env tr axios body).1.results.map
          (fun rs => rs.filter (fun x => x.channel != "telegram")) =
        (sendNotification env tr axios' body).1.results.map
          (fun rs => rs.filter (fun x => x.channel != "telegram")) ∧
      (¬ conversionThrows env tr body →
        (sendNotification env tr axios body).1.status ≠ 500 ∧
        ∃ results d, (sendNotification env tr axios body).1.results = some results ∧
          d ≠ "" ∧ results.filter (fun x => x.channel == "telegram") =
            [⟨"telegram", "failed", none, some d⟩])) := by
  obtain ⟨ie, iw, it⟩ := isolation_of_results env body hv
  refine ⟨?_, ?_, ?_⟩
  · intro t t' axios o e hc hr ho hs
    obtain ⟨h500, hfail, hothers⟩ := ie t t' axios o e hc hr ho hs
    refine ⟨h500, hothers, fun hno => ?_⟩
    obtain ⟨hst, hres⟩ := response_of_run env (some t) axios body hv
    have hd := (run_completes_iff env (some t) axios body).mpr hno
    rw [if_pos hd] at hres
    obtain ⟨d, hd1, hd2⟩ := hfail _ hres
    exact ⟨fun h => (hst.mp h) hd, _, d, hres, hd1, hd2⟩
  · intro tr axios axios' q e hc hr hq ha hagree
    obtain ⟨h500, hfail, hothers⟩ := iw tr axios axios' q e hc hr hq ha hagree
    refine ⟨h500, hothers, fun hno => ?_⟩
    obtain ⟨hst, hres⟩ := response_of_run env tr axios body hv
    have hd := (run_completes_iff env tr axios body).mpr hno
    rw [if_pos hd] at hres
    obtain ⟨d, hd1, hd2⟩ := hfail _ hres
    exact ⟨fun h => (hst.mp h) hd, _, d, hres, hd1, hd2⟩
  · intro tr axios axios' q e hc hr hq ha hagree
    obtain ⟨h500, hfail, hothers⟩ := it tr axios axios' q e hc hr hq ha hagree
    refine ⟨h500, hothers, fun hno => ?_⟩
    obtain ⟨hst, hres⟩ := response_of_run env tr axios body hv
    have hd := (run_completes_iff env tr axios body).mpr hno
    rw [if_pos hd] at hres
    obtain ⟨d, hd1, hd2⟩ := hfail _ hres
    exact ⟨fun h => (hst.mp h) hd, _, d, hres, hd1, hd2⟩

/-- Counterexample to C5: e-mail is listed and configured and the recipient is an
object with an own member `toString`; the precondition of the channel fails, yet
the response is 500 and holds no `skipped` result. -/
theorem unconvertible_email_recipient_aborts :
    passesValidation objectEmailBody = true ∧
    (objectEmailBody.optChain "channels").includes "email" = true ∧
    ¬ emailReady (some deliveringTransporter) (objectEmailBody.optChain "recipients") ∧
    (sendNotification fullEnv (some deliveringTransporter) acceptingAxios objectEmailBody).1.status
      = 500 ∧
    (sendNotification fullEnv (some deliveringTransporter) acceptingAxios
      objectEmailBody).1.results = none :=
  ⟨by decide, by decide, by unfold emailReady; decide, by decide, by decide⟩

/-- Counterexample to C6: Telegram is listed, its precondition holds and the
gateway rejects the call, the chat identifier being an object with an own member
`toString`; the response is 500 and holds no `failed` result. -/
theorem unconvertible_chat_id_aborts :
    passesValidation objectChatBody = true ∧
    (objectChatBody.optChain "channels").includes "telegram" = true ∧
    telegramReady fullEnv (objectChatBody.optChain "recipients") ∧
    telegramRequest fullEnv (objectChatBody.optChain "subject")
      (objectChatBody.optChain "message")
      ((objectChatBody.optChain "recipients").optChain "telegram") = .ok objectChatRequest ∧
    rejectingAxios objectChatRequest = .error networkError ∧
    (sendNotification fullEnv none rejectingAxios objectChatBody).1.status = 500 ∧
    (sendNotification fullEnv none rejectingAxios objectChatBody).1.results = none ∧
    (sendNotification fullEnv none rejectingAxios objectChatBody).2.length = 1 :=
  ⟨by decide, by decide, by unfold telegramReady; decide, rfl, rfl, by decide, by decide,
    by decide⟩

theorem badAddressBody_converts :
    ¬ conversionThrows fullEnv (some deliveringTransporter) badAddressBody := by
  unfold conversionThrows emailThrows whatsappThrows telegramThrows whatsappReady telegramReady
  decide

theorem whatsappTelegramBody_converts :
    ¬ conversionThrows fullEnv none whatsappTelegramBody := by
  unfold conversionThrows emailThrows whatsappThrows telegramThrows whatsappReady telegramReady
  decide

/-- Witness of C5, amended, on the scenario of the specification: e-mail
configured, the recipient `bad-address`; the response is 200 and holds the one
e-mail result, `skipped`, and the mail transport is not called. -/
theorem channel_gating_witness :
    passesValidation badAddressBody = true ∧
    ¬ emailReady (some deliveringTransporter) (badAddressBody.optChain "recipients") ∧
    (sendNotification fullEnv (some deliveringTransporter) acceptingAxios badAddressBody).1 =
      ⟨200, true, "Notifikasi berhasil diproses. Dilewati pada: email.",
        some [⟨"email", "skipped", none,
          some "Email transporter tidak dikonfigurasi atau penerima tidak valid."⟩], none⟩ ∧
    (∀ call ∈
      (sendNotification fullEnv (some deliveringTransporter) acceptingAxios badAddressBody).2,
      call.isMail = false) ∧
    (∃ results,
      (sendNotification fullEnv (some deliveringTransporter) acceptingAxios
        badAddressBody).1.results = some results ∧
      ((badAddressBody.optChain "channels").includes "email" = true →
        ∃ r, results.filter (fun x => x.channel == "email") = [r] ∧
          (r.status = "skipped" ↔
            ¬ emailReady (some deliveringTransporter)
              (badAddressBody.optChain "recipients"))) ∧
      ((badAddressBody.optChain "channels").includes "whatsapp" = true →
        ∃ r, results.filter (fun x => x.channel == "whatsapp") = [r] ∧
          (r.status = "skipped" ↔
            ¬ whatsappReady fullEnv (badAddressBody.optChain "recipients"))) ∧
      ((badAddressBody.optChain "channels").includes "telegram" = true →
        ∃ r, results.filter (fun x => x.channel == "telegram") = [r] ∧
          (r.status = "skipped" ↔
            ¬ telegramReady fullEnv (badAddressBody.optChain "recipients")))) :=
  ⟨by decide, by unfold emailReady; decide, by decide,
    (channel_gating fullEnv (some deliveringTransporter) acceptingAxios badAddressBody
      (by decide)).2.2.1 (by decide) (by unfold emailReady; decide),
    (channel_gating fullEnv (some deliveringTransporter) acceptingAxios badAddressBody
      (by decide)).2.1 badAddressBody_converts⟩

/-- Witness of C6, amended: with the WhatsApp gateway down and no conversion
throwing, the response is not 500, the WhatsApp result is `failed` with a
non-empty text, and the Telegram result is the one obtained when the WhatsApp
call succeeds. -/
theorem failure_isolation_witness :
    passesValidation whatsappTelegramBody = true ∧
    whatsappDownAxios demoWhatsappRequest = .error networkError ∧
    (sendNotification fullEnv none whatsappDownAxios whatsappTelegramBody).1.results =
      some [⟨"whatsapp", "failed", none, some "Twilio Error: Network Error"⟩,
        ⟨"telegram", "success", none, none⟩] ∧
    (sendNotification fullEnv none acceptingAxios whatsappTelegramBody).1.results =
      some [⟨"whatsapp", "success", some "SM0001", none⟩,
        ⟨"telegram", "success", none, none⟩] ∧
    ((sendNotification fullEnv none whatsappDownAxios whatsappTelegramBody).1.status = 500 ↔
      (sendNotification fullEnv none acceptingAxios whatsappTelegramBody).1.status = 500) ∧
    (sendNotification fullEnv none whatsappDownAxios whatsappTelegramBody).1.results.map
        (fun rs => rs.filter (fun x => x.channel != "whatsapp")) =
      (sendNotification fullEnv none acceptingAxios whatsappTelegramBody).1.results.map
        (fun rs => rs.filter (fun x => x.channel != "whatsapp")) ∧
    (sendNotification fullEnv none whatsappDownAxios whatsappTelegramBody).1.status ≠ 500 ∧
    ∃ results d,
      (sendNotification fullEnv none whatsappDownAxios whatsappTelegramBody).1.results =
        some results ∧
      d ≠ "" ∧ results.filter (fun x => x.channel == "whatsapp") =
        [⟨"whatsapp", "failed", none, some d⟩] := by
  have h := (failure_isolation fullEnv whatsappTelegramBody (by decide)).2.1 none
    whatsappDownAxios acceptingAxios demoWhatsappRequest networkError (by decide)
    (by unfold whatsappReady; decide) rfl rfl
    (fun q' hq' => by
      have hq : q' = demoTelegramRequest := (Except.ok.inj hq').symm
      rw [hq]; rfl)
  exact ⟨by decide, rfl, by decide, by decide, h.1, h.2.1,
    (h.2.2 whatsappTelegramBody_converts).1, (h.2.2 whatsappTelegramBody_converts).2⟩


end Server
